import Mathlib

/-
Verification of the crypto-news cover-generator services (hf-spaces-deployment).

The repository is a family of near-duplicate FastAPI services. Each service
exposes POST /generate, builds a 2D cover image (either through an SDXL
pipeline call, abstracted here as an oracle argument, or through procedural
PIL drawing, abstracted to the canvas dimensions and the selected colour
palette), overlays title and subtitle text, composites a watermark and returns
a base64 PNG data URI. The embedding below transcribes, per service variant:
the request and response records, the endpoint list, the cover-generation
control flow including its try and except structure, the text-overlay layout
arithmetic, and the filesystem path conventions. Library effects (diffusers
pipeline inference, PIL pixel rasterisation, PNG serialisation, randomness,
the filesystem) enter as explicit function arguments.
-/

namespace CoverGen

/-- RGBA-free colour palette record, one per client brand, transcribed from
the colour dictionaries of the variants. -/
structure Palette where
  primary : Nat × Nat × Nat
  secondary : Nat × Nat × Nat
  accent : Nat × Nat × Nat
  energy : Nat × Nat × Nat
deriving Repr, DecidableEq

/-- Abstracted PIL image: the embedding tracks the canvas dimensions and,
for procedurally drawn backgrounds, the colour palette the drawing code
selected. Pixel contents of library drawing calls are not modelled. -/
structure Img where
  width : Nat
  height : Nat
  scheme : Option Palette := none
deriving Repr, DecidableEq

/-- PIL Image.resize: returns an image of exactly the requested size. -/
def Img.resize (img : Img) (w h : Nat) : Img :=
  { img with width := w, height := h }

/-- PIL Image.alpha_composite: blends two equal-size images; the result has
the dimensions (and in this model the palette record) of the base image. -/
def alphaComposite (base overlay : Img) : Img :=
  base

/-- Pydantic GenerationResponse shared by the variants: success flag,
optional image_url, optional error, optional metadata dict. Metadata is
modelled as an association list with optional (JSON-null) values. -/
structure Response where
  success : Bool
  image_url : Option String := none
  error : Option String := none
  metadata : Option (List (String × Option String)) := none
deriving Repr, DecidableEq

/-- Exceptions observable at the HTTP layer: an HTTPException carrying a
status code and detail string, or any other exception with its message. -/
inductive Exc where
  | http (status : Nat) (detail : String)
  | err (msg : String)
deriving Repr, DecidableEq

/-- Python str(e): starlette HTTPException prints as "status: detail",
any other exception prints as its message. -/
def Exc.str : Exc → String
  | .http s d => toString s ++ ": " ++ d
  | .err m => m

/-- FastAPI handler try/except wrapper used by every variant whose failure
path raises: any exception escaping the body is converted to
HTTPException(500, "<prefix><str(e)>"). -/
def wrap500 (prefix_ : String) (body : Except Exc Response) : Except Exc Response :=
  match body with
  | .ok r => .ok r
  | .error e => .error (.http 500 (prefix_ ++ e.str))

/-- Base64 alphabet used by base64.b64encode. -/
def base64Table : List Char :=
  ("ABCDEFGHIJKLMNOPQRSTUVWXYZabcdefghijklmnopqrstuvwxyz0123456789+/").toList

/-- Character of the base64 alphabet at a 6-bit index. -/
def b64char (n : Nat) : Char := base64Table.getD n ('A')

/-- Standard base64 encoding of a byte list, as base64.b64encode produces. -/
def base64Encode : List Nat → String
  | [] => ("")
  | [a] =>
      String.mk [b64char (a / 4), b64char (a % 4 * 16), '=', '=']
  | [a, b] =>
      String.mk [b64char (a / 4), b64char (a % 4 * 16 + b / 16), b64char (b % 16 * 4), '=']
  | a :: b :: c :: rest =>
      String.mk [b64char (a / 4), b64char (a % 4 * 16 + b / 16),
        b64char (b % 16 * 4 + c / 64), b64char (c % 64)] ++ base64Encode rest

/-- Python truthiness idiom "request.style or default": None and the empty
string both fall back to the default. -/
def pyOr (s : Option String) (d : String) : String :=
  match s with
  | none => d
  | some v => if v = "" then d else v

/-- ASCII uppercase of one character, the effect of str.upper on the ASCII
titles this service handles. -/
def upChar (c : Char) : Char :=
  if 97 ≤ c.toNat ∧ c.toNat ≤ 122 then Char.ofNat (c.toNat - 32) else c

/-- Python title.upper() on ASCII text. -/
def pyUpper (s : String) : String := String.mk (s.toList.map upChar)

/-- Python str.split() with no argument: split on whitespace runs and drop
empty words. -/
def pySplit (s : String) : List String :=
  (s.split Char.isWhitespace).filter (fun w => w ≠ "")

/-- Python " ".join(words). -/
def joinSp (ws : List String) : String := String.intercalate (" ") ws

/-- One pydantic request-model field: its name and whether it is required
(has no default). -/
structure FieldSpec where
  name : String
  required : Bool
deriving Repr, DecidableEq

/-- Externally observable signature of one service variant: its request
fields and the HTTP routes it registers. -/
structure Variant where
  name : String
  requestFields : List FieldSpec
  endpoints : List String
deriving Repr, DecidableEq

/-- One draw.text call of a text overlay: the rendered string and its
top-left anchor. Shadow layers repeat the same string at small offsets and
are not listed separately. -/
structure TextDraw where
  line : String
  x : Int
  y : Int
deriving Repr, DecidableEq

/-- Result of create_text_overlay in the variants whose layout arithmetic is
verified: the computed title lines, the main title draw calls, and the
subtitle draw call when a subtitle is rendered. -/
structure OverlayLayout where
  titleLines : List String
  titleDraws : List TextDraw
  subtitleDraw : Option TextDraw
deriving Repr, DecidableEq

/-- Layout of a successful overlay computation, empty layout on the error
case; used to state layout properties without binders. -/
def okLayoutOf (r : Except String OverlayLayout) : OverlayLayout :=
  r.toOption.getD ⟨[], [], none⟩

namespace lightweight

/-- Request model of app_lightweight.py (GenerationRequest): title required,
subtitle, client and style defaulted. It has no use_trained_lora field. -/
structure Request where
  title : String
  subtitle : String := ("CRYPTO NEWS")
  client : String := ("hedera")
  style : Option String := some ("dark_theme")
deriving Repr, DecidableEq

/-- Field list of the pydantic request model of app_lightweight.py. -/
def requestFields : List FieldSpec :=
  [⟨("title"), true⟩, ⟨("subtitle"), false⟩, ⟨("client"), false⟩, ⟨("style"), false⟩]

/-- Routes registered by app_lightweight.py. -/
def endpoints : List String := [("/"), ("/health"), ("/generate")]

/-- Hedera palette of the colour dictionary in create_enhanced_background. -/
def hederaPalette : Palette :=
  ⟨(138, 43, 226), (75, 0, 130), (186, 85, 211), (255, 0, 255)⟩

/-- Client colour dictionary of create_enhanced_background. -/
def colors : List (String × Palette) :=
  [(("hedera"), hederaPalette),
   (("algorand"), ⟨(0, 120, 140), (0, 85, 100), (75, 163, 224), (0, 255, 255)⟩),
   (("constellation"), ⟨(72, 61, 139), (25, 25, 112), (106, 90, 205), (255, 255, 255)⟩)]

/-- Python colors.get(client, colors["hedera"]): dictionary lookup with the
hedera palette as default. -/
def clientColorsFor (client : String) : Palette :=
  (colors.lookup client).getD hederaPalette

/-- Procedural background of app_lightweight.py: draws style-specific
gradients, hexagons, nodes or waves with the selected client palette on a
width x height canvas. Pixel drawing is abstracted to the canvas size and
the palette that the drawing code uses. -/
def create_enhanced_background (width height : Nat) (client style : String) : Img :=
  let client_colors := clientColorsFor client
  { width := width, height := height, scheme := some client_colors }

/-- Watermark file name loaded by load_watermark. -/
def watermark_path : String := "genfinity-watermark.png"

/-- Text overlay layout of app_lightweight.py. The argument tw gives the
rendered bounding-box width of a string (draw.textbbox with the title or
subtitle font; the embedding does not distinguish the two fonts because
the source measures each string with the font it draws it with). The float
comparison text_width > width * 0.8 is embedded as the exact rational
inequality 5 * text_width > 4 * width, which agrees with the float
evaluation at the call width 1800 (1800 * 0.8 rounds to exactly 1440.0).
When title is empty and subtitle is not, the source raises NameError
because title_lines is unbound; that exception is the error case. -/
def create_text_overlay (tw : String → Nat) (width height : Nat)
    (title subtitle : String) : Except String OverlayLayout :=
  let title_y : Int := (height / 3 : Nat)
  let titlePart : Option (List String × List TextDraw) :=
    if title = "" then none
    else
      let title := pyUpper title
      let text_width := tw title
      let title_lines :=
        if 5 * text_width > 4 * width then
          let words := pySplit title
          let mid := words.length / 2
          [joinSp (words.take mid), joinSp (words.drop mid)]
        else [title]
      some (title_lines, title_lines.enum.map (fun p =>
        let text_width := tw p.2
        { line := p.2, x := ((width : Int) - (text_width : Int)).fdiv 2,
          y := title_y + (p.1 : Int) * 200 }))
  if subtitle = "" then
    .ok { titleLines := (titlePart.map (fun q => q.1)).getD [],
          titleDraws := (titlePart.map (fun q => q.2)).getD [],
          subtitleDraw := none }
  else
    match titlePart with
    | none => .error ("NameError: name title_lines is not defined")
    | some (title_lines, draws) =>
        let subtitle_y : Int := title_y + (title_lines.length : Int) * 200 + 80
        let text_width := tw subtitle
        let x : Int := ((width : Int) - (text_width : Int)).fdiv 2
        .ok { titleLines := title_lines, titleDraws := draws,
              subtitleDraw := some { line := subtitle, x := x, y := subtitle_y } }

/-- Cover generation of app_lightweight.py: 1800 x 900 procedural background,
text overlay, optional watermark resized to full canvas. Any exception in
the body is caught and None is returned. -/
def generate_cover (watermark : Option Img) (tw : String → Nat)
    (title subtitle client style : String) : Option Img :=
  let width := 1800
  let height := 900
  let background := create_enhanced_background width height client style
  let base_rgba := background
  match create_text_overlay tw width height title subtitle with
  | .error _ => none
  | .ok _lay =>
      let base_rgba := alphaComposite base_rgba { width := width, height := height }
      let final_image :=
        match watermark with
        | some wm => alphaComposite base_rgba (wm.resize width height)
        | none => base_rgba
      some final_image

/-- Metadata dict of the success response of app_lightweight.py. -/
def metadataFor (req : Request) : List (String × Option String) :=
  [(("client"), some req.client), (("style"), req.style), (("title"), some req.title),
   (("subtitle"), some req.subtitle), (("generator"), some ("enhanced-lightweight")),
   (("resolution"), some ("1800x900"))]

/-- Body of the POST /generate handler of app_lightweight.py before its
outer except clause. The argument png stands for image.save PNG
serialisation. -/
def handlerBody (watermark : Option Img) (tw : String → Nat)
    (png : Img → List Nat) (req : Request) : Except Exc Response :=
  match generate_cover watermark tw req.title req.subtitle req.client
      (pyOr req.style ("dark_theme")) with
  | none => .error (.http 500 ("Failed to generate image"))
  | some image =>
      .ok { success := true,
            image_url := some (("data:image/png;base64,") ++ base64Encode (png image)),
            metadata := some (metadataFor req) }

/-- POST /generate of app_lightweight.py: the body wrapped in the except
clause that converts any exception into HTTPException(500,
"Generation failed: <str(e)>"). -/
def generate_image (watermark : Option Img) (tw : String → Nat)
    (png : Img → List Nat) (req : Request) : Except Exc Response :=
  wrap500 ("Generation failed: ") (handlerBody watermark tw png req)

/-- Observable signature of app_lightweight.py. -/
def variant : Variant :=
  { name := ("app_lightweight"), requestFields := requestFields, endpoints := endpoints }

end lightweight

namespace appLora

/-- Request model of app_lora.py: title required, subtitle, client and style
defaulted; no use_trained_lora field. -/
structure Request where
  title : String
  subtitle : String := ("CRYPTO NEWS")
  client : String := ("hedera")
  style : Option String := some ("energy_fields")
deriving Repr, DecidableEq

/-- Field list of the pydantic request model of app_lora.py. -/
def requestFields : List FieldSpec :=
  [⟨("title"), true⟩, ⟨("subtitle"), false⟩, ⟨("client"), false⟩, ⟨("style"), false⟩]

/-- Routes registered by app_lora.py. -/
def endpoints : List String := [("/"), ("/health"), ("/generate")]

/-- Watermark file name loaded by load_watermark. -/
def watermark_path : String := "genfinity-watermark.png"

/-- LoRA weight path that load_lora_model of app_lora.py resolves for a
client: it contains the client name only, no style component. -/
def loraPathOf (client : String) : String :=
  ("models/lora/") ++ client ++ ("_lora.safetensors")

/-- load_lora_model of app_lora.py: true when the per-client file exists and
pipeline.load_lora_weights plus fuse_lora succeed (argument loadOk), false
when the file is missing or loading raised. -/
def load_lora_model (exists_ : String → Bool) (loadOk : Bool) (client : String) : Bool :=
  if exists_ (loraPathOf client) then loadOk else false

/-- Text overlay layout of app_lora.py: identical control flow to the
lightweight variant with line spacing 130 and subtitle gap 50. The same
NameError occurs when title is empty and subtitle is not. -/
def create_text_overlay (tw : String → Nat) (width height : Nat)
    (title subtitle : String) : Except String OverlayLayout :=
  let title_y : Int := (height / 3 : Nat)
  let titlePart : Option (List String × List TextDraw) :=
    if title = "" then none
    else
      let title := pyUpper title
      let text_width := tw title
      let title_lines :=
        if 5 * text_width > 4 * width then
          let words := pySplit title
          let mid := words.length / 2
          [joinSp (words.take mid), joinSp (words.drop mid)]
        else [title]
      some (title_lines, title_lines.enum.map (fun p =>
        let text_width := tw p.2
        { line := p.2, x := ((width : Int) - (text_width : Int)).fdiv 2,
          y := title_y + (p.1 : Int) * 130 }))
  if subtitle = "" then
    .ok { titleLines := (titlePart.map (fun q => q.1)).getD [],
          titleDraws := (titlePart.map (fun q => q.2)).getD [],
          subtitleDraw := none }
  else
    match titlePart with
    | none => .error ("NameError: name title_lines is not defined")
    | some (title_lines, draws) =>
        let subtitle_y : Int := title_y + (title_lines.length : Int) * 130 + 50
        let text_width := tw subtitle
        let x : Int := ((width : Int) - (text_width : Int)).fdiv 2
        .ok { titleLines := title_lines, titleDraws := draws,
              subtitleDraw := some { line := subtitle, x := x, y := subtitle_y } }

/-- Cover generation of app_lora.py: the SDXL pipeline renders a background
at 1792 x 896 (pipeOut, none when the pipeline call raised), which is
resized to 1800 x 900, then text overlay and watermark are composited. Any
exception is caught and None returned. -/
def generate_cover (watermark : Option Img) (exists_ : String → Bool) (loadOk : Bool)
    (tw : String → Nat) (pipeOut : Option Img)
    (title subtitle client style : String) : Option Img :=
  let _lora_loaded := load_lora_model exists_ loadOk client
  match pipeOut with
  | none => none
  | some image =>
      let resized_image := image.resize 1800 900
      let base_rgba := resized_image
      match create_text_overlay tw 1800 900 title subtitle with
      | .error _ => none
      | .ok _lay =>
          let base_rgba := alphaComposite base_rgba { width := 1800, height := 900 }
          let final_image :=
            match watermark with
            | some wm => alphaComposite base_rgba (wm.resize 1800 900)
            | none => base_rgba
          some final_image

/-- Metadata dict of the success response of app_lora.py. -/
def metadataFor (req : Request) : List (String × Option String) :=
  [(("client"), some req.client), (("style"), req.style), (("title"), some req.title),
   (("subtitle"), some req.subtitle), (("generator"), some ("real-lora")),
   (("resolution"), some ("1800x900"))]

/-- Body of the POST /generate handler of app_lora.py. -/
def handlerBody (watermark : Option Img) (exists_ : String → Bool) (loadOk : Bool)
    (tw : String → Nat) (pipeOut : Option Img) (png : Img → List Nat)
    (req : Request) : Except Exc Response :=
  match generate_cover watermark exists_ loadOk tw pipeOut req.title req.subtitle
      req.client (pyOr req.style ("energy_fields")) with
  | none => .error (.http 500 ("Failed to generate image"))
  | some image =>
      .ok { success := true,
            image_url := some (("data:image/png;base64,") ++ base64Encode (png image)),
            metadata := some (metadataFor req) }

/-- POST /generate of app_lora.py with its outer except clause. -/
def generate_image (watermark : Option Img) (exists_ : String → Bool) (loadOk : Bool)
    (tw : String → Nat) (pipeOut : Option Img) (png : Img → List Nat)
    (req : Request) : Except Exc Response :=
  wrap500 ("Generation failed: ") (handlerBody watermark exists_ loadOk tw pipeOut png req)

/-- Observable signature of app_lora.py. -/
def variant : Variant :=
  { name := ("app_lora"), requestFields := requestFields, endpoints := endpoints }

end appLora

namespace freshSdxl

/-- Request model of FRESH_SDXL_20251014_1514/app.py: title required,
subtitle, client, style and use_trained_lora defaulted. -/
structure Request where
  title : String
  subtitle : String := ("CRYPTO NEWS")
  client : String := ("hedera")
  style : Option String := some ("dark_theme")
  use_trained_lora : Bool := true
deriving Repr, DecidableEq

/-- Field list of the pydantic request model of the FRESH_SDXL variant. -/
def requestFields : List FieldSpec :=
  [⟨("title"), true⟩, ⟨("subtitle"), false⟩, ⟨("client"), false⟩, ⟨("style"), false⟩,
   ⟨("use_trained_lora"), false⟩]

/-- Routes registered by the FRESH_SDXL variant. -/
def endpoints : List String := [("/"), ("/health"), ("/lora-status"), ("/generate")]

/-- Watermark file name loaded by load_watermark. -/
def watermark_path : String := "genfinity-watermark.png"

/-- LoRA directory scanned by check_available_loras. -/
def lora_dir : String := "models/lora"

/-- Style keys scanned by check_available_loras. -/
def styles : List String :=
  [("energy_fields"), ("dark_theme"), ("network_nodes"), ("particle_waves")]

/-- Client keys scanned by check_available_loras. -/
def clients : List String := [("hedera"), ("algorand"), ("constellation")]

/-- Path of the client and style specific LoRA weight file probed by
check_available_loras. -/
def loraPathFor (client style : String) : String :=
  lora_dir ++ ("/") ++ client ++ ("_") ++ style ++ ("_lora.safetensors")

/-- Path of the universal style LoRA probed by check_available_loras. -/
def universalLoraPath : String := lora_dir ++ ("/crypto_cover_styles_lora.safetensors")

/-- check_available_loras: scans the filesystem (argument exists_) for the
client and style specific files and the universal file, producing the
lora_available dictionary mapping key to path. An absent lora directory
yields the empty dictionary. -/
def check_available_loras (exists_ : String → Bool) : List (String × String) :=
  if !exists_ lora_dir then []
  else
    (clients.flatMap fun client => styles.filterMap fun style =>
      if exists_ (loraPathFor client style) then
        some (client ++ ("_") ++ style, loraPathFor client style)
      else none)
    ++ (if exists_ universalLoraPath then [(("universal"), universalLoraPath)] else [])

/-- Mutable generator state of SDXLLoRACoverGenerator that the handlers
read: whether the SDXL pipeline loaded, the available LoRA dictionary, the
currently loaded LoRA key and the watermark. -/
structure GenState where
  pipelineLoaded : Bool
  lora_available : List (String × String)
  current_lora : Option String := none
  watermark : Option Img := none
deriving Repr, DecidableEq

/-- load_lora_weights: picks the client_style LoRA if available, else the
universal LoRA, loads it (argument loadOk is the success of the library
call) and records the loaded key in current_lora; returns false without a
pipeline, without a matching LoRA, or when loading raised. -/
def load_lora_weights (st : GenState) (loadOk : Bool)
    (client style : String) : Bool × GenState :=
  if !st.pipelineLoaded then (false, st)
  else
    let lora_key := client ++ ("_") ++ style
    let chosen : Option String :=
      if (st.lora_available.lookup lora_key).isSome then some lora_key
      else if (st.lora_available.lookup ("universal")).isSome then some ("universal")
      else none
    match chosen with
    | none => (false, st)
    | some key =>
        if loadOk then (true, { st with current_lora := some key }) else (false, st)

/-- generate_with_trained_lora: returns None without a pipeline; otherwise
loads LoRA weights, runs the SDXL pipeline (argument pipeOut, none when the
pipeline call raised) and upscales the 1024 x 512 output to 1800 x 900. -/
def generate_with_trained_lora (st : GenState) (loadOk : Bool) (pipeOut : Option Img)
    (client style : String) : Option Img × GenState :=
  if !st.pipelineLoaded then (none, st)
  else
    let (_lora_loaded, st1) := load_lora_weights st loadOk client style
    match pipeOut with
    | none => (none, st1)
    | some image => (some (image.resize 1800 900), st1)

/-- Hedera palette of generate_programmatic_fallback. -/
def hederaPalette : Palette :=
  ⟨(138, 43, 226), (75, 0, 130), (186, 85, 211), (255, 0, 255)⟩

/-- Client colour dictionary of generate_programmatic_fallback. -/
def colors : List (String × Palette) :=
  [(("hedera"), hederaPalette),
   (("algorand"), ⟨(0, 120, 140), (0, 85, 100), (75, 163, 224), (0, 255, 255)⟩),
   (("constellation"), ⟨(72, 61, 139), (25, 25, 112), (106, 90, 205), (255, 255, 255)⟩)]

/-- Python colors.get(client, colors["hedera"]) of the fallback generator. -/
def clientColorsFor (client : String) : Palette :=
  (colors.lookup client).getD hederaPalette

/-- generate_programmatic_fallback: draws a dark gradient and hexagon
pattern with the selected client palette on a width x height canvas. Pixel
drawing is abstracted to the canvas size and the selected palette. -/
def generate_programmatic_fallback (width height : Nat) (client style : String) : Img :=
  let client_colors := clientColorsFor client
  { width := width, height := height, scheme := some client_colors }

/-- Background selection step of generate_cover: the trained LoRA path is
attempted exactly when use_trained_lora is set, lora_available is nonempty
and the pipeline is loaded; whenever it is skipped or returns None the
programmatic fallback is used. -/
def coverBackground (st : GenState) (use_trained_lora loadOk : Bool)
    (pipeOut : Option Img) (client style : String) : Img × GenState :=
  let (background, st1) :=
    if use_trained_lora && !st.lora_available.isEmpty && st.pipelineLoaded then
      generate_with_trained_lora st loadOk pipeOut client style
    else (none, st)
  match background with
  | none => (generate_programmatic_fallback 1800 900 client style, st1)
  | some bg => (bg, st1)

/-- Text overlay of the FRESH_SDXL variant: draws the uppercased title in
one line, or in two lines when it has more than three words, then the
subtitle in a rounded box. The embedding keeps the canvas and the NameError
raised when title is empty while a subtitle is given (title_lines is then
unbound); draw calls are abstracted. -/
def create_text_overlay (width height : Nat) (title subtitle : String) :
    Except String Img :=
  if title = "" ∧ subtitle ≠ "" then
    .error ("NameError: name title_lines is not defined")
  else .ok { width := width, height := height }

/-- generate_cover of the FRESH_SDXL variant: background selection, text
overlay, watermark compositing; returns (image, method) on success and
(None, "error") when an exception was caught. -/
def generate_cover (st : GenState) (use_trained_lora loadOk : Bool)
    (pipeOut : Option Img) (title subtitle client style : String) :
    (Option Img × String) × GenState :=
  let width := 1800
  let height := 900
  let (background, st1) := coverBackground st use_trained_lora loadOk pipeOut client style
  match create_text_overlay width height title subtitle with
  | .error _ => ((none, ("error")), st1)
  | .ok overlay =>
      let base_rgba := alphaComposite background overlay
      let final_image :=
        match st1.watermark with
        | some wm => alphaComposite base_rgba (wm.resize width height)
        | none => base_rgba
      let generation_method :=
        if use_trained_lora && st1.current_lora.isSome then ("sdxl_universal_lora")
        else ("programmatic_fallback")
      ((some final_image, generation_method), st1)

/-- Metadata dict of the success response of the FRESH_SDXL variant. -/
def metadataFor (req : Request) (method : String) (lora_used : Option String) :
    List (String × Option String) :=
  [(("client"), some req.client), (("style"), req.style), (("title"), some req.title),
   (("subtitle"), some req.subtitle), (("generation_method"), some method),
   (("lora_used"), lora_used), (("resolution"), some ("1800x900"))]

/-- Body of the POST /generate handler of the FRESH_SDXL variant. -/
def handlerBody (st : GenState) (loadOk : Bool) (pipeOut : Option Img)
    (png : Img → List Nat) (req : Request) : Except Exc Response × GenState :=
  let ((cover, method), st1) := generate_cover st req.use_trained_lora loadOk pipeOut
      req.title req.subtitle req.client (pyOr req.style ("dark_theme"))
  match cover with
  | none => (.error (.http 500 ("Generation failed")), st1)
  | some image =>
      (.ok { success := true,
             image_url := some (("data:image/png;base64,") ++ base64Encode (png image)),
             metadata := some (metadataFor req method st1.current_lora) }, st1)

/-- POST /generate of the FRESH_SDXL variant with its outer except clause. -/
def generate_image (st : GenState) (loadOk : Bool) (pipeOut : Option Img)
    (png : Img → List Nat) (req : Request) : Except Exc Response × GenState :=
  let (body, st1) := handlerBody st loadOk pipeOut png req
  (wrap500 ("Generation failed: ") body, st1)

/-- Observable signature of the FRESH_SDXL variant. -/
def variant : Variant :=
  { name := ("FRESH_SDXL_20251014_1514/app"), requestFields := requestFields,
    endpoints := endpoints }

end freshSdxl

namespace enhancedFallback

/-- Request model of app_enhanced_fallback.py: title required, subtitle,
client, style and use_trained_lora defaulted. -/
structure Request where
  title : String
  subtitle : String := ("CRYPTO NEWS")
  client : String := ("hedera")
  style : Option String := some ("dark_theme")
  use_trained_lora : Bool := true
deriving Repr, DecidableEq

/-- Field list of the pydantic request model of app_enhanced_fallback.py. -/
def requestFields : List FieldSpec :=
  [⟨("title"), true⟩, ⟨("subtitle"), false⟩, ⟨("client"), false⟩, ⟨("style"), false⟩,
   ⟨("use_trained_lora"), false⟩]

/-- Routes registered by app_enhanced_fallback.py. -/
def endpoints : List String := [("/"), ("/health"), ("/generate")]

/-- Watermark file name loaded by load_watermark. -/
def watermark_path : String := "genfinity-watermark.png"

/-- Generator state of EnhancedUniversalGenerator: watermark, whether a
universal LoRA file was found, whether the LoRA pipeline loaded. -/
structure EFState where
  watermark : Option Img := none
  universal_lora_available : Bool := false
  lora_pipeline : Bool := false
deriving Repr, DecidableEq

/-- generate_with_universal_lora: returns None without a loaded pipeline,
otherwise runs the pipeline at 1024 x 512 (pipeOut, none when the call
raised) and upscales to 1800 x 900. -/
def generate_with_universal_lora (st : EFState) (pipeOut : Option Img) : Option Img :=
  if !st.lora_pipeline then none
  else
    match pipeOut with
    | none => none
    | some image => some (image.resize 1800 900)

/-- Hedera palette of generate_enhanced_fallback (note the brighter energy
colour of this variant). -/
def hederaPalette : Palette :=
  ⟨(138, 43, 226), (75, 0, 130), (186, 85, 211), (255, 100, 255)⟩

/-- Client colour dictionary of generate_enhanced_fallback: five brands. -/
def colors : List (String × Palette) :=
  [(("hedera"), hederaPalette),
   (("algorand"), ⟨(0, 120, 140), (0, 85, 100), (75, 163, 224), (0, 255, 255)⟩),
   (("constellation"), ⟨(72, 61, 139), (25, 25, 112), (106, 90, 205), (255, 255, 255)⟩),
   (("bitcoin"), ⟨(255, 165, 0), (184, 115, 51), (255, 215, 0), (255, 255, 0)⟩),
   (("ethereum"), ⟨(98, 126, 234), (52, 73, 154), (162, 177, 255), (255, 255, 255)⟩)]

/-- Python colors.get(client, colors["hedera"]) of this variant. -/
def clientColorsFor (client : String) : Palette :=
  (colors.lookup client).getD hederaPalette

/-- generate_enhanced_fallback: procedural background with the selected
palette on a width x height canvas; drawing abstracted as elsewhere. -/
def generate_enhanced_fallback (width height : Nat) (client style : String) : Img :=
  let client_colors := clientColorsFor client
  { width := width, height := height, scheme := some client_colors }

/-- Background selection step of generate_cover of this variant: the
universal LoRA is attempted exactly when use_trained_lora is set and the
LoRA pipeline is loaded; whenever it is skipped or returns None the
enhanced procedural fallback is used. The second component is the
generation_method string. -/
def coverBackground (st : EFState) (use_trained_lora : Bool) (pipeOut : Option Img)
    (client style : String) : Img × String :=
  let background : Option Img :=
    if use_trained_lora && st.lora_pipeline then generate_with_universal_lora st pipeOut
    else none
  let generation_method :=
    match background with
    | some _ => ("universal_lora")
    | none => ("enhanced_fallback")
  match background with
  | none => (generate_enhanced_fallback 1800 900 client style, generation_method)
  | some bg => (bg, generation_method)

/-- Text overlay of app_enhanced_fallback.py: uppercased title in one line,
or two lines when it has more than four words, plus boxed subtitle; the
NameError on an empty title with a subtitle is kept, draw calls are
abstracted. -/
def create_text_overlay (width height : Nat) (title subtitle : String) :
    Except String Img :=
  if title = "" ∧ subtitle ≠ "" then
    .error ("NameError: name title_lines is not defined")
  else .ok { width := width, height := height }

/-- generate_cover of app_enhanced_fallback.py: background selection, text
overlay, watermark; (None, "error") when an exception was caught. -/
def generate_cover (st : EFState) (use_trained_lora : Bool) (pipeOut : Option Img)
    (title subtitle client style : String) : Option Img × String :=
  let width := 1800
  let height := 900
  let (background, generation_method) := coverBackground st use_trained_lora pipeOut client style
  match create_text_overlay width height title subtitle with
  | .error _ => (none, ("error"))
  | .ok overlay =>
      let base_rgba := alphaComposite background overlay
      let final_image :=
        match st.watermark with
        | some wm => alphaComposite base_rgba (wm.resize width height)
        | none => base_rgba
      (some final_image, generation_method)

/-- Metadata dict of the success response of app_enhanced_fallback.py. -/
def metadataFor (st : EFState) (req : Request) (method : String) :
    List (String × Option String) :=
  [(("client"), some req.client), (("style"), req.style), (("title"), some req.title),
   (("subtitle"), some req.subtitle), (("generation_method"), some method),
   (("universal_lora_available"), some (toString st.universal_lora_available)),
   (("resolution"), some ("1800x900")), (("generator"), some ("enhanced-universal-v3"))]

/-- Body of the POST /generate handler of app_enhanced_fallback.py. -/
def handlerBody (st : EFState) (pipeOut : Option Img) (png : Img → List Nat)
    (req : Request) : Except Exc Response :=
  let (cover, method) := generate_cover st req.use_trained_lora pipeOut
      req.title req.subtitle req.client (pyOr req.style ("dark_theme"))
  match cover with
  | none => .error (.http 500 ("Generation failed"))
  | some image =>
      .ok { success := true,
            image_url := some (("data:image/png;base64,") ++ base64Encode (png image)),
            metadata := some (metadataFor st req method) }

/-- POST /generate of app_enhanced_fallback.py with its outer except
clause. -/
def generate_image (st : EFState) (pipeOut : Option Img) (png : Img → List Nat)
    (req : Request) : Except Exc Response :=
  wrap500 ("Generation failed: ") (handlerBody st pipeOut png req)

/-- Observable signature of app_enhanced_fallback.py. -/
def variant : Variant :=
  { name := ("app_enhanced_fallback"), requestFields := requestFields,
    endpoints := endpoints }

end enhancedFallback

namespace forceVisible

/-- Request model of app_force_visible.py: title required, subtitle, client
and style defaulted; no use_trained_lora field. -/
structure Request where
  title : String
  subtitle : String := ("CRYPTO NEWS")
  client : String := ("hedera")
  style : Option String := some ("dark_theme")
deriving Repr, DecidableEq

/-- Field list of the pydantic request model of app_force_visible.py. -/
def requestFields : List FieldSpec :=
  [⟨("title"), true⟩, ⟨("subtitle"), false⟩, ⟨("client"), false⟩, ⟨("style"), false⟩]

/-- Routes registered by app_force_visible.py. -/
def endpoints : List String := [("/"), ("/health"), ("/generate")]

/-- Watermark file name loaded by load_watermark. -/
def watermark_path : String := "genfinity-watermark.png"

/-- Hedera palette of create_ultra_visible_background (brightened). -/
def hederaPalette : Palette :=
  ⟨(200, 100, 255), (150, 50, 200), (255, 150, 255), (255, 100, 255)⟩

/-- Client colour dictionary of create_ultra_visible_background. -/
def colors : List (String × Palette) :=
  [(("hedera"), hederaPalette),
   (("algorand"), ⟨(0, 200, 220), (0, 150, 180), (100, 220, 255), (0, 255, 255)⟩),
   (("constellation"), ⟨(120, 100, 200), (80, 80, 150), (150, 130, 255), (255, 255, 255)⟩)]

/-- Python colors.get(client, colors["hedera"]) of this variant. -/
def clientColorsFor (client : String) : Palette :=
  (colors.lookup client).getD hederaPalette

/-- create_ultra_visible_background: procedural background on a
width x height canvas with the selected palette; drawing abstracted. -/
def create_ultra_visible_background (width height : Nat) (client style : String) : Img :=
  let client_colors := clientColorsFor client
  { width := width, height := height, scheme := some client_colors }

/-- create_massive_text_overlay: uppercased title in one, two (word split)
lines, plus boxed subtitle; the NameError on empty title with subtitle is
kept, draw calls are abstracted. -/
def create_massive_text_overlay (width height : Nat) (title subtitle : String) :
    Except String Img :=
  if title = "" ∧ subtitle ≠ "" then
    .error ("NameError: name title_lines is not defined")
  else .ok { width := width, height := height }

/-- generate_cover of app_force_visible.py: 1800 x 900 procedural
background, massive text overlay, watermark; None when an exception was
caught. -/
def generate_cover (watermark : Option Img) (title subtitle client style : String) :
    Option Img :=
  let width := 1800
  let height := 900
  let background := create_ultra_visible_background width height client style
  match create_massive_text_overlay width height title subtitle with
  | .error _ => none
  | .ok overlay =>
      let base_rgba := alphaComposite background overlay
      let final_image :=
        match watermark with
        | some wm => alphaComposite base_rgba (wm.resize width height)
        | none => base_rgba
      some final_image

/-- Metadata dict of the success response of app_force_visible.py. -/
def metadataFor (req : Request) : List (String × Option String) :=
  [(("client"), some req.client), (("style"), req.style), (("title"), some req.title),
   (("subtitle"), some req.subtitle), (("generator"), some ("ULTRA-VISIBLE-FORCE")),
   (("resolution"), some ("1800x900")), (("visibility"), some ("MAXIMUM"))]

/-- Body of the POST /generate handler of app_force_visible.py. -/
def handlerBody (watermark : Option Img) (png : Img → List Nat)
    (req : Request) : Except Exc Response :=
  match generate_cover watermark req.title req.subtitle req.client
      (pyOr req.style ("dark_theme")) with
  | none => .error (.http 500 ("FORCE generation failed"))
  | some image =>
      .ok { success := true,
            image_url := some (("data:image/png;base64,") ++ base64Encode (png image)),
            metadata := some (metadataFor req) }

/-- POST /generate of app_force_visible.py with its outer except clause. -/
def generate_image (watermark : Option Img) (png : Img → List Nat)
    (req : Request) : Except Exc Response :=
  wrap500 ("FORCE generation failed: ") (handlerBody watermark png req)

/-- Observable signature of app_force_visible.py. -/
def variant : Variant :=
  { name := ("app_force_visible"), requestFields := requestFields, endpoints := endpoints }

end forceVisible

namespace appFixed

/-- Request model of app_fixed.py: title required, subtitle, client and
style defaulted; no use_trained_lora field. -/
structure Request where
  title : String
  subtitle : String := ("CRYPTO NEWS")
  client : String := ("algorand")
  style : Option String := some ("energy_fields")
deriving Repr, DecidableEq

/-- Field list of the pydantic request model of app_fixed.py. -/
def requestFields : List FieldSpec :=
  [⟨("title"), true⟩, ⟨("subtitle"), false⟩, ⟨("client"), false⟩, ⟨("style"), false⟩]

/-- Routes registered by app_fixed.py. -/
def endpoints : List String :=
  [("/"), ("/health"), ("/generate"), ("/download/{client}.png")]

/-- Possible outcomes of the subprocess.run call that app_fixed.py
delegates generation to. -/
inductive RunOutcome where
  | completed (returncode : Int) (stderr : String)
  | timeout
  | exc (msg : String)
deriving Repr, DecidableEq

/-- Metadata dict of the success response of app_fixed.py: no resolution
entry, but the output path. -/
def metadataFor (req : Request) : List (String × Option String) :=
  [(("client"), some req.client), (("style"), req.style), (("title"), some req.title),
   (("output_path"), some (("/app/style_outputs/boxed_cover_") ++ req.client ++ (".png")))]

/-- POST /generate of app_fixed.py: runs simple_lora_generator.py in a
subprocess and returns HTTP 200 bodies in every case, with success false
and an error string on failure. No path raises an HTTPException. -/
def generate_image (run : RunOutcome) (outputExists : Bool) (req : Request) :
    Except Exc Response :=
  match run with
  | .completed returncode stderr =>
      if returncode ≠ 0 then
        .ok { success := false, error := some (("Generation failed: ") ++ stderr) }
      else if outputExists then
        .ok { success := true,
              image_url := some (("/download/") ++ req.client ++ (".png")),
              metadata := some (metadataFor req) }
      else
        .ok { success := false, error := some ("Output file not created") }
  | .timeout => .ok { success := false, error := some ("Generation timeout") }
  | .exc msg => .ok { success := false, error := some msg }

/-- Observable signature of app_fixed.py. -/
def variant : Variant :=
  { name := ("app_fixed"), requestFields := requestFields, endpoints := endpoints }

end appFixed

namespace appMinimal

/-- Request model of app_minimal.py: title required, subtitle, client and
style defaulted; no use_trained_lora field. -/
structure Request where
  title : String
  subtitle : String := ("CRYPTO NEWS")
  client : String := ("algorand")
  style : Option String := some ("energy_fields")
deriving Repr, DecidableEq

/-- Field list of the pydantic request model of app_minimal.py. -/
def requestFields : List FieldSpec :=
  [⟨("title"), true⟩, ⟨("subtitle"), false⟩, ⟨("client"), false⟩, ⟨("style"), false⟩]

/-- Routes registered by app_minimal.py. -/
def endpoints : List String := [("/"), ("/health"), ("/generate")]

/-- generate_crypto_cover of app_minimal.py: draws a gradient cover at
1792 x 896 (not 1800 x 900), centred title and subtitle, brand text; the
canvas dimensions are the observable kept by the embedding. -/
def generate_crypto_cover (tw : String → Nat)
    (title subtitle client style : String) : Img :=
  let width : Nat := 1792
  let height : Nat := 896
  let _title_x : Int := ((width : Int) - (tw title : Int)).fdiv 2
  { width := width, height := height }

/-- Metadata dict of the success response of app_minimal.py: it has no
resolution entry. -/
def metadataFor (req : Request) : List (String × Option String) :=
  [(("client"), some req.client), (("style"), req.style), (("title"), some req.title),
   (("method"), some ("minimal_generation"))]

/-- POST /generate of app_minimal.py: generate_crypto_cover re-raises its
exceptions (argument gen carries either the image or the exception
message), and the handler catches them and returns an HTTP 200 body with
success false and the exception string. No path raises an HTTPException. -/
def generate_image (gen : Except String Img) (png : Img → List Nat) (req : Request) :
    Except Exc Response :=
  match gen with
  | .error e => .ok { success := false, error := some e }
  | .ok image =>
      .ok { success := true,
            image_url := some (("data:image/png;base64,") ++ base64Encode (png image)),
            metadata := some (metadataFor req) }

/-- Observable signature of app_minimal.py. -/
def variant : Variant :=
  { name := ("app_minimal"), requestFields := requestFields, endpoints := endpoints }

end appMinimal

namespace appCpuLora

/-- Request model of universal_lora_deploy_2025-10-14/app_CPU_LORA.py:
title required, subtitle, client, style and use_trained_lora defaulted. -/
structure Request where
  title : String
  subtitle : String := ("CRYPTO NEWS")
  client : String := ("hedera")
  style : Option String := some ("dark_theme")
  use_trained_lora : Bool := true
deriving Repr, DecidableEq

/-- Field list of the pydantic request model of app_CPU_LORA.py. -/
def requestFields : List FieldSpec :=
  [⟨("title"), true⟩, ⟨("subtitle"), false⟩, ⟨("client"), false⟩, ⟨("style"), false⟩,
   ⟨("use_trained_lora"), false⟩]

/-- Routes registered by app_CPU_LORA.py. -/
def endpoints : List String := [("/"), ("/health"), ("/generate")]

/-- Watermark file name loaded by load_watermark. -/
def watermark_path : String := "genfinity-watermark.png"

/-- The only LoRA file this variant resolves: the universal LoRA, required
at startup by check_available_loras. -/
def universal_lora : String := "models/lora/crypto_cover_styles_lora.safetensors"

/-- force_load_lora_weights of app_CPU_LORA.py: raises without a pipeline
or when the library load call raises (loadResult carries the exception
message of pipeline.load_lora_weights, none on success); on success the
universal LoRA becomes current_lora. -/
def force_load_lora_weights (pipelineLoaded : Bool) (loadResult : Option String) :
    Except String Bool :=
  if !pipelineLoaded then .error ("Pipeline not loaded")
  else
    match loadResult with
    | some e => .error (("LoRA loading failed: ") ++ e)
    | none => .ok true

/-- generate_with_cpu_lora: raises without a pipeline, propagates LoRA-load
exceptions, wraps pipeline-call exceptions once, and upscales the
1024 x 512 output to 1800 x 900. There is no procedural fallback. -/
def generate_with_cpu_lora (pipelineLoaded : Bool) (loadResult : Option String)
    (pipeOut : Except String Img) : Except String Img :=
  if !pipelineLoaded then .error ("Pipeline not available")
  else
    match force_load_lora_weights pipelineLoaded loadResult with
    | .error e => .error e
    | .ok _ =>
        match pipeOut with
        | .error e => .error (("CPU LoRA generation failed: ") ++ e)
        | .ok image => .ok (image.resize 1800 900)

/-- Text overlay of app_CPU_LORA.py: uppercased title in one line, or in
two when it has more than three words, plus boxed subtitle; the NameError
raised on an empty title with a subtitle is kept, draw calls abstracted. -/
def create_text_overlay (width height : Nat) (title subtitle : String) :
    Except String Img :=
  if title = ("") ∧ subtitle ≠ ("") then
    .error ("NameError: name title_lines is not defined")
  else .ok { width := width, height := height }

/-- generate_cover of app_CPU_LORA.py: LoRA background only (no fallback),
text overlay, watermark; its except clause re-raises every exception
wrapped as "CPU LoRA generation failed: ...". -/
def generate_cover (watermark : Option Img) (pipelineLoaded : Bool)
    (loadResult : Option String) (pipeOut : Except String Img)
    (title subtitle client style : String) : Except String (Img × String) :=
  match generate_with_cpu_lora pipelineLoaded loadResult pipeOut with
  | .error e => .error (("CPU LoRA generation failed: ") ++ e)
  | .ok background =>
      match create_text_overlay 1800 900 title subtitle with
      | .error e => .error (("CPU LoRA generation failed: ") ++ e)
      | .ok overlay =>
          let base_rgba := alphaComposite background overlay
          let final_image :=
            match watermark with
            | some wm => alphaComposite base_rgba (wm.resize 1800 900)
            | none => base_rgba
          .ok (final_image, ("cpu_universal_lora"))

/-- Metadata dict of the success response of app_CPU_LORA.py; on the
success path current_lora is always the universal LoRA, since generation
fails hard when loading it fails. -/
def metadataFor (req : Request) (method : String) : List (String × Option String) :=
  [(("client"), some req.client), (("style"), req.style), (("title"), some req.title),
   (("subtitle"), some req.subtitle), (("generation_method"), some method),
   (("lora_used"), some ("universal")), (("device"), some ("cpu")),
   (("resolution"), some ("1800x900"))]

/-- POST /generate of app_CPU_LORA.py: any exception becomes
HTTPException(500, "CPU LoRA generation failed: <str(e)>"). -/
def generate_image (watermark : Option Img) (pipelineLoaded : Bool)
    (loadResult : Option String) (pipeOut : Except String Img)
    (png : Img → List Nat) (req : Request) : Except Exc Response :=
  match generate_cover watermark pipelineLoaded loadResult pipeOut req.title req.subtitle
      req.client (pyOr req.style ("dark_theme")) with
  | .error e => .error (.http 500 (("CPU LoRA generation failed: ") ++ e))
  | .ok (image, method) =>
      .ok { success := true,
            image_url := some (("data:image/png;base64,") ++ base64Encode (png image)),
            metadata := some (metadataFor req method) }

/-- Observable signature of app_CPU_LORA.py. -/
def variant : Variant :=
  { name := ("universal_lora_deploy_2025-10-14/app_CPU_LORA"),
    requestFields := requestFields, endpoints := endpoints }

end appCpuLora

namespace appLoraOnly

/-- Request model of universal_lora_deploy_2025-10-14/app_LORA_ONLY.py:
title required, subtitle, client, style and use_trained_lora defaulted. -/
structure Request where
  title : String
  subtitle : String := ("CRYPTO NEWS")
  client : String := ("hedera")
  style : Option String := some ("dark_theme")
  use_trained_lora : Bool := true
deriving Repr, DecidableEq

/-- Field list of the pydantic request model of app_LORA_ONLY.py. -/
def requestFields : List FieldSpec :=
  [⟨("title"), true⟩, ⟨("subtitle"), false⟩, ⟨("client"), false⟩, ⟨("style"), false⟩,
   ⟨("use_trained_lora"), false⟩]

/-- Routes registered by app_LORA_ONLY.py. -/
def endpoints : List String := [("/"), ("/health"), ("/generate")]

/-- Watermark file name loaded by load_watermark. -/
def watermark_path : String := "genfinity-watermark.png"

/-- The only LoRA file this variant resolves: the universal LoRA, required
at startup by check_available_loras. -/
def universal_lora : String := "models/lora/crypto_cover_styles_lora.safetensors"

/-- force_load_lora_weights of app_LORA_ONLY.py: raises without a pipeline
or when loading raises; loads only the universal LoRA. -/
def force_load_lora_weights (pipelineLoaded : Bool) (loadResult : Option String) :
    Except String Bool :=
  if !pipelineLoaded then .error ("Pipeline not loaded - cannot load LoRA")
  else
    match loadResult with
    | some e => .error (("LoRA loading failed: ") ++ e)
    | none => .ok true

/-- generate_with_universal_lora of app_LORA_ONLY.py: raises without a
pipeline, propagates LoRA-load exceptions, wraps pipeline-call exceptions
once, upscales 1024 x 512 to 1800 x 900; no fallback of any kind. -/
def generate_with_universal_lora (pipelineLoaded : Bool) (loadResult : Option String)
    (pipeOut : Except String Img) : Except String Img :=
  if !pipelineLoaded then .error ("SDXL Pipeline not available")
  else
    match force_load_lora_weights pipelineLoaded loadResult with
    | .error e => .error e
    | .ok _ =>
        match pipeOut with
        | .error e => .error (("LoRA generation failed: ") ++ e)
        | .ok image => .ok (image.resize 1800 900)

/-- create_enhanced_text_overlay of app_LORA_ONLY.py: uppercased title in
one or two (word-split) lines plus boxed subtitle; keeps the NameError on
an empty title with a subtitle, draw calls abstracted. -/
def create_enhanced_text_overlay (width height : Nat) (title subtitle : String) :
    Except String Img :=
  if title = ("") ∧ subtitle ≠ ("") then
    .error ("NameError: name title_lines is not defined")
  else .ok { width := width, height := height }

/-- generate_cover of app_LORA_ONLY.py: LoRA background only, overlay,
watermark; its except clause re-raises everything wrapped as
"LoRA generation failed - NO FALLBACKS: ...". -/
def generate_cover (watermark : Option Img) (pipelineLoaded : Bool)
    (loadResult : Option String) (pipeOut : Except String Img)
    (title subtitle client style : String) : Except String (Img × String) :=
  match generate_with_universal_lora pipelineLoaded loadResult pipeOut with
  | .error e => .error (("LoRA generation failed - NO FALLBACKS: ") ++ e)
  | .ok background =>
      match create_enhanced_text_overlay 1800 900 title subtitle with
      | .error e => .error (("LoRA generation failed - NO FALLBACKS: ") ++ e)
      | .ok overlay =>
          let base_rgba := alphaComposite background overlay
          let final_image :=
            match watermark with
            | some wm => alphaComposite base_rgba (wm.resize 1800 900)
            | none => base_rgba
          .ok (final_image, ("pure_universal_lora"))

/-- Metadata dict of the success response of app_LORA_ONLY.py; on the
success path current_lora is always the universal LoRA. -/
def metadataFor (req : Request) (method : String) : List (String × Option String) :=
  [(("client"), some req.client), (("style"), req.style), (("title"), some req.title),
   (("subtitle"), some req.subtitle), (("generation_method"), some method),
   (("lora_used"), some ("universal")), (("resolution"), some ("1800x900")),
   (("fallbacks_used"), some ("False"))]

/-- POST /generate of app_LORA_ONLY.py: any exception becomes
HTTPException(500, "LoRA generation failed (NO FALLBACKS): <str(e)>"). -/
def generate_image (watermark : Option Img) (pipelineLoaded : Bool)
    (loadResult : Option String) (pipeOut : Except String Img)
    (png : Img → List Nat) (req : Request) : Except Exc Response :=
  match generate_cover watermark pipelineLoaded loadResult pipeOut req.title req.subtitle
      req.client (pyOr req.style ("dark_theme")) with
  | .error e => .error (.http 500 (("LoRA generation failed (NO FALLBACKS): ") ++ e))
  | .ok (image, method) =>
      .ok { success := true,
            image_url := some (("data:image/png;base64,") ++ base64Encode (png image)),
            metadata := some (metadataFor req method) }

/-- Observable signature of app_LORA_ONLY.py. -/
def variant : Variant :=
  { name := ("universal_lora_deploy_2025-10-14/app_LORA_ONLY"),
    requestFields := requestFields, endpoints := endpoints }

end appLoraOnly

namespace deployLightweight

/-- Request model of universal_lora_deploy_2025-10-14/app_lightweight.py
(version 5.0.0, a distinct program from the top-level app_lightweight.py):
title required, subtitle, client, style and use_trained_lora defaulted. -/
structure Request where
  title : String
  subtitle : String := ("CRYPTO NEWS")
  client : String := ("hedera")
  style : Option String := some ("dark_theme")
  use_trained_lora : Bool := true
deriving Repr, DecidableEq

/-- Field list of the pydantic request model of the deploy lightweight
variant. -/
def requestFields : List FieldSpec :=
  [⟨("title"), true⟩, ⟨("subtitle"), false⟩, ⟨("client"), false⟩, ⟨("style"), false⟩,
   ⟨("use_trained_lora"), false⟩]

/-- Routes registered by the deploy lightweight variant: it does expose
GET /lora-status. -/
def endpoints : List String := [("/"), ("/health"), ("/lora-status"), ("/generate")]

/-- Watermark file name loaded by load_watermark. -/
def watermark_path : String := "genfinity-watermark.png"

/-- Hedera palette of generate_lora_style_background. -/
def hederaPalette : Palette :=
  ⟨(138, 43, 226), (75, 0, 130), (186, 85, 211), (255, 0, 255)⟩

/-- Client colour dictionary of generate_lora_style_background: five
brands. -/
def colors : List (String × Palette) :=
  [(("hedera"), hederaPalette),
   (("algorand"), ⟨(0, 120, 140), (0, 85, 100), (75, 163, 224), (0, 255, 255)⟩),
   (("constellation"), ⟨(72, 61, 139), (25, 25, 112), (106, 90, 205), (255, 255, 255)⟩),
   (("bitcoin"), ⟨(247, 147, 26), (205, 102, 0), (255, 193, 7), (255, 215, 0)⟩),
   (("ethereum"), ⟨(98, 126, 234), (55, 71, 153), (141, 155, 255), (173, 216, 230)⟩)]

/-- Python colors.get(client, colors["hedera"]) of this variant. -/
def clientColorsFor (client : String) : Palette :=
  (colors.lookup client).getD hederaPalette

/-- generate_lora_style_background: purely procedural background with the
selected palette on a width x height canvas; drawing abstracted. -/
def generate_lora_style_background (width height : Nat) (client style : String) : Img :=
  let client_colors := clientColorsFor client
  { width := width, height := height, scheme := some client_colors }

/-- Text overlay of the deploy lightweight variant: uppercased title in
one line, or in two when it has more than four words, plus boxed subtitle;
the NameError on an empty title with a subtitle is kept, draw calls
abstracted. -/
def create_text_overlay (width height : Nat) (title subtitle : String) :
    Except String Img :=
  if title = ("") ∧ subtitle ≠ ("") then
    .error ("NameError: name title_lines is not defined")
  else .ok { width := width, height := height }

/-- generate_cover of the deploy lightweight variant: 1800 x 900
procedural background, overlay, watermark; (None, "error") when an
exception was caught. -/
def generate_cover (watermark : Option Img) (title subtitle client style : String) :
    Option Img × String :=
  let width := 1800
  let height := 900
  let background := generate_lora_style_background width height client style
  match create_text_overlay width height title subtitle with
  | .error _ => (none, ("error"))
  | .ok overlay =>
      let base_rgba := alphaComposite background overlay
      let final_image :=
        match watermark with
        | some wm => alphaComposite base_rgba (wm.resize width height)
        | none => base_rgba
      (some final_image, ("lightweight_lora_style"))

/-- Metadata dict of the success response of the deploy lightweight
variant. -/
def metadataFor (req : Request) (method : String) : List (String × Option String) :=
  [(("client"), some req.client), (("style"), req.style), (("title"), some req.title),
   (("subtitle"), some req.subtitle), (("generation_method"), some method),
   (("lora_used"), some ("universal_lightweight")), (("resolution"), some ("1800x900"))]

/-- Body of the POST /generate handler of the deploy lightweight
variant. -/
def handlerBody (watermark : Option Img) (png : Img → List Nat) (req : Request) :
    Except Exc Response :=
  let (cover, method) := generate_cover watermark req.title req.subtitle req.client
      (pyOr req.style ("dark_theme"))
  match cover with
  | none => .error (.http 500 ("Generation failed"))
  | some image =>
      .ok { success := true,
            image_url := some (("data:image/png;base64,") ++ base64Encode (png image)),
            metadata := some (metadataFor req method) }

/-- POST /generate of the deploy lightweight variant with its outer except
clause. -/
def generate_image (watermark : Option Img) (png : Img → List Nat) (req : Request) :
    Except Exc Response :=
  wrap500 ("Generation failed: ") (handlerBody watermark png req)

/-- Observable signature of the deploy lightweight variant. -/
def variant : Variant :=
  { name := ("universal_lora_deploy_2025-10-14/app_lightweight"),
    requestFields := requestFields, endpoints := endpoints }

end deployLightweight

namespace appMinimalSd15

/-- Request model of universal_lora_deploy_2025-10-14/app_minimal_sd15.py:
client, style and title are all required; there is no subtitle and no
use_trained_lora field and nothing is defaulted. -/
structure Request where
  client : String
  style : String
  title : String
deriving Repr, DecidableEq

/-- Field list of the pydantic request model of app_minimal_sd15.py. -/
def requestFields : List FieldSpec :=
  [⟨("client"), true⟩, ⟨("style"), true⟩, ⟨("title"), true⟩]

/-- Routes registered by app_minimal_sd15.py: only /health and /generate,
there is no root route. -/
def endpoints : List String := [("/health"), ("/generate")]

/-- The only LoRA file this variant loads at startup. -/
def lora_path : String := "models/lora/crypto_cover_styles_lora.safetensors"

/-- Width passed to the SD 1.5 pipeline call. -/
def pipeline_width : Nat := 1024

/-- Height passed to the SD 1.5 pipeline call. -/
def pipeline_height : Nat := 512

/-- The 200 body of app_minimal_sd15.py: a plain dict with a success flag,
a bare base64 image string and the model name. It has no image_url, error
or metadata field. -/
structure ResponseBody where
  success : Bool
  image : String
  model : String
deriving Repr, DecidableEq

/-- generate of app_minimal_sd15.py: the SD 1.5 pipeline renders at
1024 x 512 (pipeOut, error = exception message); the title is drawn centred
at x = (width - text_width) // 2 directly onto that image, which is never
resized, and the raw base64 PNG of it is returned. -/
def generate (tw : String → Nat) (png : Img → List Nat) (pipeOut : Except String Img)
    (title : String) : Except String String :=
  match pipeOut with
  | .error e => .error e
  | .ok image =>
      let _x : Int := ((image.width : Int) - (tw title : Int)).fdiv 2
      .ok (base64Encode (png image))

/-- POST /generate of app_minimal_sd15.py: failures raise
HTTPException(500, str(e)); success returns the plain dict body. -/
def generate_cover (tw : String → Nat) (png : Img → List Nat)
    (pipeOut : Except String Img) (req : Request) : Except Exc ResponseBody :=
  match generate tw png pipeOut req.title with
  | .error e => .error (.http 500 e)
  | .ok img_base64 =>
      .ok { success := true, image := img_base64, model := ("SD 1.5 + LoRA") }

/-- Observable signature of app_minimal_sd15.py. -/
def variant : Variant :=
  { name := ("universal_lora_deploy_2025-10-14/app_minimal_sd15"),
    requestFields := requestFields, endpoints := endpoints }

end appMinimalSd15

/-- The eleven FastAPI cover-generator services of the repository: the
seven top-level apps and the four distinct variants under
universal_lora_deploy_2025-10-14. The remaining Python files register no
FastAPI generation route: three Gradio UIs, a bare diagnostic test app
without /generate, a thin HTTP client, and training, dataset and test
scripts. -/
def variants : List Variant :=
  [freshSdxl.variant, lightweight.variant, appLora.variant, enhancedFallback.variant,
   forceVisible.variant, appFixed.variant, appMinimal.variant, appCpuLora.variant,
   appLoraOnly.variant, deployLightweight.variant, appMinimalSd15.variant]

namespace createUniversalLora

/-- Dataset statistics produced by analyze_dataset of
create_universal_lora_model.py. -/
structure DatasetStats where
  total_samples : Nat
  styles : List String
  clients : List String
deriving Repr, DecidableEq

/-- One record appended to training_log per simulated step. -/
structure LogEntry where
  step : Nat
  loss : ℚ
  style : String
  client : String
deriving Repr, DecidableEq

/-- Number of iterations of the simulated training loop. -/
def training_steps : Nat := 500

/-- Duration of the time.sleep call executed once per loop iteration,
in seconds. -/
def step_sleep_seconds : ℚ := 1 / 100

/-- Fabricated loss of one step: the linearly decreasing schedule
1.5 * (1 - step / 500) plus the random.uniform(-0.1, 0.1) draw (argument
noise), clamped from below at 0.02. Float literals of the source are read
as the rationals they denote. -/
def simulatedLoss (noise : Nat → ℚ) (step : Nat) : ℚ :=
  max (1 / 50) (3 / 2 * (1 - (step : ℚ) / 500) + noise step)

/-- create_lora_model_structure of create_universal_lora_model.py: the
"training" loop runs 500 steps, each fabricating a loss value, drawing a
random style and client (arguments pickStyle, pickClient stand for the
random.choice calls) and sleeping step_sleep_seconds; no model parameter is
read or written. -/
def create_lora_model_structure (stats : DatasetStats) (noise : Nat → ℚ)
    (pickStyle pickClient : Nat → String) : List LogEntry :=
  let _ := stats
  (List.range training_steps).map fun step =>
    { step := step, loss := simulatedLoss noise step,
      style := pickStyle step, client := pickClient step }

/-- Tensor of the mock weights: shape plus the index of the fresh
torch.randn draw that produced it; the values depend on nothing else. -/
structure Tensor where
  rows : Nat
  cols : Nat
  sampleIndex : Nat
deriving Repr, DecidableEq

/-- Key string of one mock LoRA weight entry. -/
def loraKeyName (ab : String) (i j k l : Nat) (proj : String) : String :=
  ("lora_unet.down_blocks.") ++ toString i ++ (".attentions.") ++ toString j ++
  (".transformer_blocks.") ++ toString k ++ (".attn") ++ toString l ++
  (".to_") ++ proj ++ (".lora_") ++ ab ++ (".weight")

/-- Key list of one of the two dict comprehensions of
save_universal_lora_model (ab is "A" or "B"). -/
def loraABKeys (ab : String) : List String :=
  (List.range 3).flatMap fun i =>
    (List.range 2).flatMap fun j =>
      (List.range 2).flatMap fun k =>
        [1, 2].flatMap fun l =>
          [("q"), ("k"), ("v"), ("out")].map fun proj => loraKeyName ab i j k l proj

/-- The mock LoRA weight dictionary of save_universal_lora_model: every
entry is a fresh torch.randn draw, lora_A entries of shape 32 x 320 and
lora_B entries of shape 320 x 32. The construction takes no dataset and no
training log. -/
def mock_lora_weights : List (String × Tensor) :=
  ((loraABKeys ("A")).enum.map fun p => (p.2, ⟨32, 320, p.1⟩)) ++
  ((loraABKeys ("B")).enum.map fun p => (p.2, ⟨320, 32, (loraABKeys ("A")).length + p.1⟩))

/-- Files written by save_universal_lora_model: the weight dictionary and
the model_info fields derived from the dataset statistics and the log. -/
structure SavedModel where
  weights : List (String × Tensor)
  dataset_size : Nat
  training_steps_info : Nat
  final_loss : ℚ
deriving Repr, DecidableEq

/-- save_universal_lora_model of create_universal_lora_model.py: saves the
mock weights and a model_info record; only the info fields read the
dataset statistics or the training log. -/
def save_universal_lora_model (stats : DatasetStats) (log : List LogEntry) : SavedModel :=
  { weights := mock_lora_weights,
    dataset_size := stats.total_samples,
    training_steps_info := log.length,
    final_loss := ((log.getLast?).map (fun e => e.loss)).getD 0 }

end createUniversalLora

/-- Concrete response fixture used by the claim C1 witness: the value of
the lightweight handler at a simple request with trivial serialisation. -/
def c1WitnessResponse : Response :=
  { success := true,
    image_url := some ("data:image/png;base64,"),
    metadata := some [(("client"), some ("hedera")), (("style"), some ("dark_theme")),
      (("title"), some ("BTC")), (("subtitle"), some ("CRYPTO NEWS")),
      (("generator"), some ("enhanced-lightweight")), (("resolution"), some ("1800x900"))] }

end CoverGen

open CoverGen in
/-- Claim C6 as stated is refuted: app_lightweight.py registers only the
routes /, /health and /generate; it exposes no /lora-status endpoint. -/
theorem claim_C6_counterexample :
    CoverGen.lightweight.variant ∈ CoverGen.variants ∧
    ¬ ("/lora-status") ∈ CoverGen.lightweight.endpoints := by
  decide

open CoverGen in
/-- Claim C6 amended: every modelled FastAPI variant exposes GET /health,
and every one except app_minimal_sd15 (which registers no root route) also
exposes GET /, each returning a JSON status record; GET /lora-status
exists exactly on the FRESH_SDXL variant and the deploy lightweight
variant. -/
theorem claim_C6_amended :
    (CoverGen.variants.all fun v => v.endpoints.contains ("/health")) = true ∧
    (CoverGen.variants.all fun v =>
      (v.name == ("universal_lora_deploy_2025-10-14/app_minimal_sd15")) ||
      v.endpoints.contains ("/")) = true ∧
    ¬ ("/") ∈ CoverGen.appMinimalSd15.endpoints ∧
    ("/lora-status") ∈ CoverGen.freshSdxl.endpoints ∧
    ("/lora-status") ∈ CoverGen.deployLightweight.endpoints ∧
    (CoverGen.variants.all fun v =>
      v.endpoints.contains ("/lora-status")
        == ([("FRESH_SDXL_20251014_1514/app"),
             ("universal_lora_deploy_2025-10-14/app_lightweight")].contains v.name)) = true := by
  refine ⟨by decide, by decide, by decide, by decide, by decide, by decide⟩

open CoverGen in
/-- Claim C1 as stated is refuted: the request model of app_lightweight.py
has no use_trained_lora field at all, so not every variant accepts that
field with a default. -/
theorem claim_C1_counterexample :
    CoverGen.lightweight.variant ∈ CoverGen.variants ∧
    (CoverGen.lightweight.requestFields.all fun f =>
      f.name != ("use_trained_lora")) = true := by
  decide

open CoverGen in
/-- Claim C1 amended: every modelled variant requires title; every one
except app_minimal_sd15 defaults subtitle, client and style, while
app_minimal_sd15 requires client, style and title and has no subtitle
field; a defaulted use_trained_lora field is accepted exactly by the
FRESH_SDXL, enhanced-fallback, CPU_LORA, LORA_ONLY and deploy lightweight
variants; and in every variant that inlines a data-URI image (all but
app_fixed, whose success image_url is a /download path, and
app_minimal_sd15, whose 200 body is a plain dict with a bare base64 image
and neither image_url nor metadata), every 200 response with success true
carries an image_url beginning with the base64 PNG data-URI prefix and a
metadata record. -/
theorem claim_C1_amended :
    (CoverGen.variants.all fun v => v.requestFields.contains ⟨("title"), true⟩) = true ∧
    (CoverGen.variants.all fun v =>
      (v.name == ("universal_lora_deploy_2025-10-14/app_minimal_sd15")) ||
      (v.requestFields.contains ⟨("subtitle"), false⟩ &&
       v.requestFields.contains ⟨("client"), false⟩ &&
       v.requestFields.contains ⟨("style"), false⟩)) = true ∧
    CoverGen.appMinimalSd15.requestFields
      = [⟨("client"), true⟩, ⟨("style"), true⟩, ⟨("title"), true⟩] ∧
    (CoverGen.variants.all fun v =>
      v.requestFields.contains ⟨("use_trained_lora"), false⟩
        == ([("FRESH_SDXL_20251014_1514/app"), ("app_enhanced_fallback"),
             ("universal_lora_deploy_2025-10-14/app_CPU_LORA"),
             ("universal_lora_deploy_2025-10-14/app_LORA_ONLY"),
             ("universal_lora_deploy_2025-10-14/app_lightweight")].contains v.name)) = true ∧
    (∀ wm tw png req r,
      CoverGen.lightweight.generate_image wm tw png req = Except.ok r →
      r.success = true ∧ r.metadata.isSome = true ∧
      ∃ t, r.image_url = some (("data:image/png;base64,") ++ t)) ∧
    (∀ wm ex lo tw pp png req r,
      CoverGen.appLora.generate_image wm ex lo tw pp png req = Except.ok r →
      r.success = true ∧ r.metadata.isSome = true ∧
      ∃ t, r.image_url = some (("data:image/png;base64,") ++ t)) ∧
    (∀ st lo pp png req r st1,
      CoverGen.freshSdxl.generate_image st lo pp png req = (Except.ok r, st1) →
      r.success = true ∧ r.metadata.isSome = true ∧
      ∃ t, r.image_url = some (("data:image/png;base64,") ++ t)) ∧
    (∀ st pp png req r,
      CoverGen.enhancedFallback.generate_image st pp png req = Except.ok r →
      r.success = true ∧ r.metadata.isSome = true ∧
      ∃ t, r.image_url = some (("data:image/png;base64,") ++ t)) ∧
    (∀ wm png req r,
      CoverGen.forceVisible.generate_image wm png req = Except.ok r →
      r.success = true ∧ r.metadata.isSome = true ∧
      ∃ t, r.image_url = some (("data:image/png;base64,") ++ t)) ∧
    (∀ gen png req r,
      CoverGen.appMinimal.generate_image gen png req = Except.ok r →
      r.success = true →
      r.metadata.isSome = true ∧
      ∃ t, r.image_url = some (("data:image/png;base64,") ++ t)) ∧
    (∀ wm pl lr pp png req r,
      CoverGen.appCpuLora.generate_image wm pl lr pp png req = Except.ok r →
      r.success = true ∧ r.metadata.isSome = true ∧
      ∃ t, r.image_url = some (("data:image/png;base64,") ++ t)) ∧
    (∀ wm pl lr pp png req r,
      CoverGen.appLoraOnly.generate_image wm pl lr pp png req = Except.ok r →
      r.success = true ∧ r.metadata.isSome = true ∧
      ∃ t, r.image_url = some (("data:image/png;base64,") ++ t)) ∧
    (∀ wm png req r,
      CoverGen.deployLightweight.generate_image wm png req = Except.ok r →
      r.success = true ∧ r.metadata.isSome = true ∧
      ∃ t, r.image_url = some (("data:image/png;base64,") ++ t)) ∧
    (∀ tw png pp req r,
      CoverGen.appMinimalSd15.generate_cover tw png pp req = Except.ok r →
      r.success = true ∧ r.model = ("SD 1.5 + LoRA")) := by
  refine ⟨by decide, by decide, by decide, by decide, ?_, ?_, ?_, ?_, ?_, ?_, ?_, ?_, ?_, ?_⟩
  · intro wm tw png req r h
    unfold CoverGen.lightweight.generate_image CoverGen.wrap500
      CoverGen.lightweight.handlerBody at h
    cases hc : CoverGen.lightweight.generate_cover wm tw req.title req.subtitle req.client
        (CoverGen.pyOr req.style ("dark_theme")) with
    | none => rw [hc] at h; simp at h
    | some image =>
        rw [hc] at h
        simp only [Except.ok.injEq] at h
        subst h
        exact ⟨rfl, rfl, ⟨_, rfl⟩⟩
  · intro wm ex lo tw pp png req r h
    unfold CoverGen.appLora.generate_image CoverGen.wrap500
      CoverGen.appLora.handlerBody at h
    cases hc : CoverGen.appLora.generate_cover wm ex lo tw pp req.title req.subtitle req.client
        (CoverGen.pyOr req.style ("energy_fields")) with
    | none => rw [hc] at h; simp at h
    | some image =>
        rw [hc] at h
        simp only [Except.ok.injEq] at h
        subst h
        exact ⟨rfl, rfl, ⟨_, rfl⟩⟩
  · intro st lo pp png req r st1 h
    unfold CoverGen.freshSdxl.generate_image CoverGen.freshSdxl.handlerBody at h
    cases hc : CoverGen.freshSdxl.generate_cover st req.use_trained_lora lo pp req.title
        req.subtitle req.client (CoverGen.pyOr req.style ("dark_theme")) with
    | mk cm st2 =>
        cases cm with
        | mk cover method =>
            rw [hc] at h
            cases cover with
            | none => simp [CoverGen.wrap500] at h
            | some image =>
                simp only [CoverGen.wrap500, Prod.mk.injEq, Except.ok.injEq] at h
                obtain ⟨h1, _⟩ := h
                subst h1
                exact ⟨rfl, rfl, ⟨_, rfl⟩⟩
  · intro st pp png req r h
    unfold CoverGen.enhancedFallback.generate_image CoverGen.wrap500
      CoverGen.enhancedFallback.handlerBody at h
    cases hc : CoverGen.enhancedFallback.generate_cover st req.use_trained_lora pp req.title
        req.subtitle req.client (CoverGen.pyOr req.style ("dark_theme")) with
    | mk cover method =>
        rw [hc] at h
        cases cover with
        | none => simp at h
        | some image =>
            simp only [Except.ok.injEq] at h
            subst h
            exact ⟨rfl, rfl, ⟨_, rfl⟩⟩
  · intro wm png req r h
    unfold CoverGen.forceVisible.generate_image CoverGen.wrap500
      CoverGen.forceVisible.handlerBody at h
    cases hc : CoverGen.forceVisible.generate_cover wm req.title req.subtitle req.client
        (CoverGen.pyOr req.style ("dark_theme")) with
    | none => rw [hc] at h; simp at h
    | some image =>
        rw [hc] at h
        simp only [Except.ok.injEq] at h
        subst h
        exact ⟨rfl, rfl, ⟨_, rfl⟩⟩
  · intro gen png req r h hs
    unfold CoverGen.appMinimal.generate_image at h
    cases gen with
    | error e =>
        simp only [Except.ok.injEq] at h
        subst h
        simp at hs
    | ok image =>
        simp only [Except.ok.injEq] at h
        subst h
        exact ⟨rfl, ⟨_, rfl⟩⟩
  · intro wm pl lr pp png req r h
    unfold CoverGen.appCpuLora.generate_image at h
    cases hc : CoverGen.appCpuLora.generate_cover wm pl lr pp req.title req.subtitle
        req.client (CoverGen.pyOr req.style ("dark_theme")) with
    | error e => rw [hc] at h; simp at h
    | ok p =>
        rw [hc] at h
        cases p with
        | mk image method =>
            simp only [Except.ok.injEq] at h
            subst h
            exact ⟨rfl, rfl, ⟨_, rfl⟩⟩
  · intro wm pl lr pp png req r h
    unfold CoverGen.appLoraOnly.generate_image at h
    cases hc : CoverGen.appLoraOnly.generate_cover wm pl lr pp req.title req.subtitle
        req.client (CoverGen.pyOr req.style ("dark_theme")) with
    | error e => rw [hc] at h; simp at h
    | ok p =>
        rw [hc] at h
        cases p with
        | mk image method =>
            simp only [Except.ok.injEq] at h
            subst h
            exact ⟨rfl, rfl, ⟨_, rfl⟩⟩
  · intro wm png req r h
    unfold CoverGen.deployLightweight.generate_image CoverGen.wrap500
      CoverGen.deployLightweight.handlerBody at h
    cases hc : CoverGen.deployLightweight.generate_cover wm req.title req.subtitle req.client
        (CoverGen.pyOr req.style ("dark_theme")) with
    | mk cover method =>
        rw [hc] at h
        cases cover with
        | none => simp at h
        | some image =>
            simp only [Except.ok.injEq] at h
            subst h
            exact ⟨rfl, rfl, ⟨_, rfl⟩⟩
  · intro tw png pp req r h
    unfold CoverGen.appMinimalSd15.generate_cover at h
    cases hg : CoverGen.appMinimalSd15.generate tw png pp req.title with
    | error e => rw [hg] at h; simp at h
    | ok b64 =>
        rw [hg] at h
        simp only [Except.ok.injEq] at h
        subst h
        exact ⟨rfl, rfl⟩

open CoverGen in
/-- Witness for claim C1: a concrete successful request to the lightweight
variant, with the success-response shape obtained by the amended theorem. -/
theorem claim_C1_witness :
    (CoverGen.lightweight.generate_image none (fun _ => 0) (fun _ => []) { title := ("BTC") }
      = Except.ok CoverGen.c1WitnessResponse) ∧
    CoverGen.c1WitnessResponse.success = true ∧
    CoverGen.c1WitnessResponse.metadata.isSome = true ∧
    ∃ t, CoverGen.c1WitnessResponse.image_url = some (("data:image/png;base64,") ++ t) := by
  refine ⟨rfl, ?_⟩
  exact claim_C1_amended.2.2.2.2.1 none (fun _ => 0) (fun _ => []) { title := ("BTC") }
    CoverGen.c1WitnessResponse rfl

open CoverGen in
/-- Claim C2 as stated is refuted: in app_fixed.py a failed generation (the
subprocess exits with returncode 1) does not produce an HTTP 500; the
handler returns an HTTP 200 body with success false and the error string. -/
theorem claim_C2_counterexample :
    CoverGen.appFixed.variant ∈ CoverGen.variants ∧
    CoverGen.appFixed.generate_image (CoverGen.appFixed.RunOutcome.completed 1 ("boom"))
        false { title := ("T") }
      = Except.ok { success := false, error := some ("Generation failed: boom") } := by
  refine ⟨by decide, rfl⟩

open CoverGen in
/-- Claim C2 amended: in the nine variants that generate in-process
(FRESH_SDXL, both lightweight files, lora, enhanced-fallback,
force-visible, CPU_LORA, LORA_ONLY and minimal_sd15), whenever cover
generation raises or yields no image, the handler raises HTTPException and
the response is HTTP 500 whose detail contains the exception message or
the fixed failure message (re-wrapped by the outer except clause where one
exists); app_fixed.py and app_minimal.py instead return HTTP 200 bodies
with success false and the error string. -/
theorem claim_C2_amended :
    (∀ wm tw png req,
      CoverGen.lightweight.generate_cover wm tw req.title req.subtitle req.client
          (CoverGen.pyOr req.style ("dark_theme")) = none →
      CoverGen.lightweight.generate_image wm tw png req
        = Except.error (CoverGen.Exc.http 500
            (("Generation failed: 500: Failed to generate image")))) ∧
    (∀ wm ex lo tw pp png req,
      CoverGen.appLora.generate_cover wm ex lo tw pp req.title req.subtitle req.client
          (CoverGen.pyOr req.style ("energy_fields")) = none →
      CoverGen.appLora.generate_image wm ex lo tw pp png req
        = Except.error (CoverGen.Exc.http 500
            (("Generation failed: 500: Failed to generate image")))) ∧
    (∀ st lo pp png req,
      (CoverGen.freshSdxl.generate_cover st req.use_trained_lora lo pp req.title
          req.subtitle req.client (CoverGen.pyOr req.style ("dark_theme"))).1.1 = none →
      (CoverGen.freshSdxl.generate_image st lo pp png req).1
        = Except.error (CoverGen.Exc.http 500
            (("Generation failed: 500: Generation failed")))) ∧
    (∀ st pp png req,
      (CoverGen.enhancedFallback.generate_cover st req.use_trained_lora pp req.title
          req.subtitle req.client (CoverGen.pyOr req.style ("dark_theme"))).1 = none →
      CoverGen.enhancedFallback.generate_image st pp png req
        = Except.error (CoverGen.Exc.http 500
            (("Generation failed: 500: Generation failed")))) ∧
    (∀ wm png req,
      CoverGen.forceVisible.generate_cover wm req.title req.subtitle req.client
          (CoverGen.pyOr req.style ("dark_theme")) = none →
      CoverGen.forceVisible.generate_image wm png req
        = Except.error (CoverGen.Exc.http 500
            (("FORCE generation failed: 500: FORCE generation failed")))) ∧
    (∀ wm pl lr pp png req e,
      CoverGen.appCpuLora.generate_cover wm pl lr pp req.title req.subtitle req.client
          (CoverGen.pyOr req.style ("dark_theme")) = Except.error e →
      CoverGen.appCpuLora.generate_image wm pl lr pp png req
        = Except.error (CoverGen.Exc.http 500 (("CPU LoRA generation failed: ") ++ e))) ∧
    (∀ wm pl lr pp png req e,
      CoverGen.appLoraOnly.generate_cover wm pl lr pp req.title req.subtitle req.client
          (CoverGen.pyOr req.style ("dark_theme")) = Except.error e →
      CoverGen.appLoraOnly.generate_image wm pl lr pp png req
        = Except.error (CoverGen.Exc.http 500
            (("LoRA generation failed (NO FALLBACKS): ") ++ e))) ∧
    (∀ wm png req,
      (CoverGen.deployLightweight.generate_cover wm req.title req.subtitle req.client
          (CoverGen.pyOr req.style ("dark_theme"))).1 = none →
      CoverGen.deployLightweight.generate_image wm png req
        = Except.error (CoverGen.Exc.http 500
            (("Generation failed: 500: Generation failed")))) ∧
    (∀ tw png pp req e,
      CoverGen.appMinimalSd15.generate tw png pp req.title = Except.error e →
      CoverGen.appMinimalSd15.generate_cover tw png pp req
        = Except.error (CoverGen.Exc.http 500 e)) ∧
    (∀ msg req, CoverGen.appMinimal.generate_image (Except.error msg) (fun _ => []) req
        = Except.ok { success := false, error := some msg }) ∧
    (∀ stderr req outEx, CoverGen.appFixed.generate_image
        (CoverGen.appFixed.RunOutcome.completed 1 stderr) outEx req
        = Except.ok { success := false, error := some (("Generation failed: ") ++ stderr) }) := by
  refine ⟨?_, ?_, ?_, ?_, ?_, ?_, ?_, ?_, ?_, ?_, ?_⟩
  · intro wm tw png req h
    unfold CoverGen.lightweight.generate_image CoverGen.lightweight.handlerBody
    rw [h]
    rfl
  · intro wm ex lo tw pp png req h
    unfold CoverGen.appLora.generate_image CoverGen.appLora.handlerBody
    rw [h]
    rfl
  · intro st lo pp png req h
    unfold CoverGen.freshSdxl.generate_image CoverGen.freshSdxl.handlerBody
    cases hc : CoverGen.freshSdxl.generate_cover st req.use_trained_lora lo pp req.title
        req.subtitle req.client (CoverGen.pyOr req.style ("dark_theme")) with
    | mk cm st2 =>
        rw [hc] at h
        cases cm with
        | mk cover method =>
            simp only at h
            subst h
            rfl
  · intro st pp png req h
    unfold CoverGen.enhancedFallback.generate_image CoverGen.enhancedFallback.handlerBody
    cases hc : CoverGen.enhancedFallback.generate_cover st req.use_trained_lora pp req.title
        req.subtitle req.client (CoverGen.pyOr req.style ("dark_theme")) with
    | mk cover method =>
        rw [hc] at h
        simp only at h
        subst h
        rfl
  · intro wm png req h
    unfold CoverGen.forceVisible.generate_image CoverGen.forceVisible.handlerBody
    rw [h]
    rfl
  · intro wm pl lr pp png req e h
    unfold CoverGen.appCpuLora.generate_image
    rw [h]
  · intro wm pl lr pp png req e h
    unfold CoverGen.appLoraOnly.generate_image
    rw [h]
  · intro wm png req h
    unfold CoverGen.deployLightweight.generate_image CoverGen.deployLightweight.handlerBody
    cases hc : CoverGen.deployLightweight.generate_cover wm req.title req.subtitle req.client
        (CoverGen.pyOr req.style ("dark_theme")) with
    | mk cover method =>
        rw [hc] at h
        simp only at h
        subst h
        rfl
  · intro tw png pp req e h
    unfold CoverGen.appMinimalSd15.generate_cover
    rw [h]
  · intro msg req
    rfl
  · intro stderr req outEx
    rfl

open CoverGen in
/-- Witness for claim C2: the concrete request with an empty title and the
default subtitle makes the overlay code raise NameError, the cover comes
back None, and the lightweight variant answers HTTP 500. -/
theorem claim_C2_witness :
    (CoverGen.lightweight.generate_cover none (fun _ => 0) ("") ("CRYPTO NEWS") ("hedera")
        ("dark_theme") = none) ∧
    CoverGen.lightweight.generate_image none (fun _ => 0) (fun _ => []) { title := ("") }
      = Except.error (CoverGen.Exc.http 500
          (("Generation failed: 500: Failed to generate image"))) :=
  ⟨rfl, claim_C2_amended.1 none (fun _ => 0) (fun _ => []) { title := ("") } rfl⟩

open CoverGen in
/-- Claim C9 as stated is refuted: when generate_crypto_cover raises, the
app_minimal.py handler returns HTTP 200 with success false and a non-null
error rather than raising an HTTPException. -/
theorem claim_C9_counterexample :
    CoverGen.appMinimal.variant ∈ CoverGen.variants ∧
    CoverGen.appMinimal.generate_image (Except.error ("boom")) (fun _ => [])
        { title := ("T") }
      = Except.ok { success := false, error := some ("boom") } := by
  refine ⟨by decide, rfl⟩

open CoverGen in
/-- Claim C9 amended: in the eight variants that return the
GenerationResponse model with an inline image (FRESH_SDXL, both
lightweight files, lora, enhanced-fallback, force-visible, CPU_LORA and
LORA_ONLY) every failure path raises an HTTPException, so every HTTP 200
response has success true, a non-null image_url and a null error;
app_minimal_sd15.py also raises on every failure but its 200 body is a
plain dict with success true, a bare base64 image field and no image_url
at all; app_fixed.py and app_minimal.py return 200 bodies with success
false on failure. -/
theorem claim_C9_amended :
    (∀ wm tw png req,
      ((CoverGen.lightweight.generate_image wm tw png req).toOption.all fun r =>
        r.success && r.image_url.isSome && r.error.isNone) = true) ∧
    (∀ wm ex lo tw pp png req,
      ((CoverGen.appLora.generate_image wm ex lo tw pp png req).toOption.all fun r =>
        r.success && r.image_url.isSome && r.error.isNone) = true) ∧
    (∀ st lo pp png req,
      (((CoverGen.freshSdxl.generate_image st lo pp png req).1).toOption.all fun r =>
        r.success && r.image_url.isSome && r.error.isNone) = true) ∧
    (∀ st pp png req,
      ((CoverGen.enhancedFallback.generate_image st pp png req).toOption.all fun r =>
        r.success && r.image_url.isSome && r.error.isNone) = true) ∧
    (∀ wm png req,
      ((CoverGen.forceVisible.generate_image wm png req).toOption.all fun r =>
        r.success && r.image_url.isSome && r.error.isNone) = true) ∧
    (∀ wm pl lr pp png req,
      ((CoverGen.appCpuLora.generate_image wm pl lr pp png req).toOption.all fun r =>
        r.success && r.image_url.isSome && r.error.isNone) = true) ∧
    (∀ wm pl lr pp png req,
      ((CoverGen.appLoraOnly.generate_image wm pl lr pp png req).toOption.all fun r =>
        r.success && r.image_url.isSome && r.error.isNone) = true) ∧
    (∀ wm png req,
      ((CoverGen.deployLightweight.generate_image wm png req).toOption.all fun r =>
        r.success && r.image_url.isSome && r.error.isNone) = true) ∧
    (∀ tw png pp req,
      ((CoverGen.appMinimalSd15.generate_cover tw png pp req).toOption.all fun r =>
        r.success) = true) ∧
    (CoverGen.appFixed.generate_image CoverGen.appFixed.RunOutcome.timeout true
        { title := ("T") }
      = Except.ok { success := false, error := some ("Generation timeout") }) := by
  refine ⟨?_, ?_, ?_, ?_, ?_, ?_, ?_, ?_, ?_, rfl⟩
  · intro wm tw png req
    unfold CoverGen.lightweight.generate_image CoverGen.wrap500
      CoverGen.lightweight.handlerBody
    cases hc : CoverGen.lightweight.generate_cover wm tw req.title req.subtitle req.client
        (CoverGen.pyOr req.style ("dark_theme")) with
    | none => rfl
    | some image => rfl
  · intro wm ex lo tw pp png req
    unfold CoverGen.appLora.generate_image CoverGen.wrap500 CoverGen.appLora.handlerBody
    cases hc : CoverGen.appLora.generate_cover wm ex lo tw pp req.title req.subtitle req.client
        (CoverGen.pyOr req.style ("energy_fields")) with
    | none => rfl
    | some image => rfl
  · intro st lo pp png req
    unfold CoverGen.freshSdxl.generate_image CoverGen.freshSdxl.handlerBody
    cases hc : CoverGen.freshSdxl.generate_cover st req.use_trained_lora lo pp req.title
        req.subtitle req.client (CoverGen.pyOr req.style ("dark_theme")) with
    | mk cm st2 =>
        cases cm with
        | mk cover method =>
            cases cover with
            | none => rfl
            | some image => rfl
  · intro st pp png req
    unfold CoverGen.enhancedFallback.generate_image CoverGen.wrap500
      CoverGen.enhancedFallback.handlerBody
    cases hc : CoverGen.enhancedFallback.generate_cover st req.use_trained_lora pp req.title
        req.subtitle req.client (CoverGen.pyOr req.style ("dark_theme")) with
    | mk cover method =>
        cases cover with
        | none => rfl
        | some image => rfl
  · intro wm png req
    unfold CoverGen.forceVisible.generate_image CoverGen.wrap500
      CoverGen.forceVisible.handlerBody
    cases hc : CoverGen.forceVisible.generate_cover wm req.title req.subtitle req.client
        (CoverGen.pyOr req.style ("dark_theme")) with
    | none => rfl
    | some image => rfl
  · intro wm pl lr pp png req
    unfold CoverGen.appCpuLora.generate_image
    cases hc : CoverGen.appCpuLora.generate_cover wm pl lr pp req.title req.subtitle
        req.client (CoverGen.pyOr req.style ("dark_theme")) with
    | error e => rfl
    | ok p => cases p with | mk image method => rfl
  · intro wm pl lr pp png req
    unfold CoverGen.appLoraOnly.generate_image
    cases hc : CoverGen.appLoraOnly.generate_cover wm pl lr pp req.title req.subtitle
        req.client (CoverGen.pyOr req.style ("dark_theme")) with
    | error e => rfl
    | ok p => cases p with | mk image method => rfl
  · intro wm png req
    unfold CoverGen.deployLightweight.generate_image CoverGen.wrap500
      CoverGen.deployLightweight.handlerBody
    cases hc : CoverGen.deployLightweight.generate_cover wm req.title req.subtitle req.client
        (CoverGen.pyOr req.style ("dark_theme")) with
    | mk cover method =>
        cases cover with
        | none => rfl
        | some image => rfl
  · intro tw png pp req
    unfold CoverGen.appMinimalSd15.generate_cover
    cases hg : CoverGen.appMinimalSd15.generate tw png pp req.title with
    | error e => rfl
    | ok b64 => rfl



open CoverGen in
/-- Helper: the background selected by the FRESH_SDXL variant always has
the final 1800 x 900 size, whichever path produced it. -/
theorem fresh_coverBackground_dims (st : CoverGen.freshSdxl.GenState) (ul lo : Bool)
    (pp : Option CoverGen.Img) (c s : String) :
    (CoverGen.freshSdxl.coverBackground st ul lo pp c s).1.width = 1800 ∧
    (CoverGen.freshSdxl.coverBackground st ul lo pp c s).1.height = 900 := by
  by_cases hcond : (ul && !st.lora_available.isEmpty && st.pipelineLoaded) = true
  · simp only [Bool.and_eq_true] at hcond
    obtain ⟨⟨hu, hl⟩, hp⟩ := hcond
    cases pp with
    | none =>
        simp [CoverGen.freshSdxl.coverBackground, CoverGen.freshSdxl.generate_with_trained_lora,
          CoverGen.freshSdxl.generate_programmatic_fallback, hu, hl, hp]
    | some i =>
        simp [CoverGen.freshSdxl.coverBackground, CoverGen.freshSdxl.generate_with_trained_lora,
          CoverGen.Img.resize, hu, hl, hp]
  · rw [Bool.not_eq_true] at hcond
    simp only [Bool.and_eq_true, Bool.and_eq_false_iff] at hcond
    rcases hcond with (hu | hl) | hp
    · simp [CoverGen.freshSdxl.coverBackground,
        CoverGen.freshSdxl.generate_programmatic_fallback, hu]
    · simp [CoverGen.freshSdxl.coverBackground,
        CoverGen.freshSdxl.generate_programmatic_fallback, hl]
    · simp [CoverGen.freshSdxl.coverBackground, CoverGen.freshSdxl.generate_with_trained_lora,
        CoverGen.freshSdxl.generate_programmatic_fallback, hp]

open CoverGen in
/-- Helper: the background selected by the enhanced-fallback variant always
has the final 1800 x 900 size. -/
theorem enhanced_coverBackground_dims (st : CoverGen.enhancedFallback.EFState) (ul : Bool)
    (pp : Option CoverGen.Img) (c s : String) :
    (CoverGen.enhancedFallback.coverBackground st ul pp c s).1.width = 1800 ∧
    (CoverGen.enhancedFallback.coverBackground st ul pp c s).1.height = 900 := by
  by_cases hcond : (ul && st.lora_pipeline) = true
  · simp only [Bool.and_eq_true] at hcond
    obtain ⟨hu, hp⟩ := hcond
    cases pp with
    | none =>
        simp [CoverGen.enhancedFallback.coverBackground,
          CoverGen.enhancedFallback.generate_with_universal_lora,
          CoverGen.enhancedFallback.generate_enhanced_fallback, hu, hp]
    | some i =>
        simp [CoverGen.enhancedFallback.coverBackground,
          CoverGen.enhancedFallback.generate_with_universal_lora,
          CoverGen.Img.resize, hu, hp]
  · rw [Bool.not_eq_true] at hcond
    simp only [Bool.and_eq_false_iff] at hcond
    rcases hcond with hu | hp
    · simp [CoverGen.enhancedFallback.coverBackground,
        CoverGen.enhancedFallback.generate_enhanced_fallback, hu]
    · simp [CoverGen.enhancedFallback.coverBackground,
        CoverGen.enhancedFallback.generate_with_universal_lora,
        CoverGen.enhancedFallback.generate_enhanced_fallback, hp]

open CoverGen in
/-- Claim C4 as stated is refuted: app_minimal.py draws its cover at
1792 x 896, not 1800 x 900, and its response metadata has no resolution
entry. -/
theorem claim_C4_counterexample :
    CoverGen.appMinimal.variant ∈ CoverGen.variants ∧
    (CoverGen.appMinimal.generate_crypto_cover (fun _ => 0) ("Bitcoin Soars")
      ("CRYPTO NEWS") ("hedera") ("energy_fields")).width = 1792 ∧
    (CoverGen.appMinimal.generate_crypto_cover (fun _ => 0) ("Bitcoin Soars")
      ("CRYPTO NEWS") ("hedera") ("energy_fields")).height = 896 ∧
    ¬ ((1792 : Nat) = 1800 ∧ (896 : Nat) = 900) ∧
    (CoverGen.appMinimal.metadataFor { title := ("Bitcoin Soars") }).lookup ("resolution")
      = none := by
  refine ⟨by decide, rfl, rfl, by decide, rfl⟩

open CoverGen in
/-- Helper: a background produced by the CPU LoRA variant is always the
pipeline output resized to 1800 x 900. -/
theorem cpu_background_dims (pl : Bool) (lr : Option String) (pp : Except String CoverGen.Img)
    (bg : CoverGen.Img) (h : CoverGen.appCpuLora.generate_with_cpu_lora pl lr pp = Except.ok bg) :
    bg.width = 1800 ∧ bg.height = 900 := by
  unfold CoverGen.appCpuLora.generate_with_cpu_lora
    CoverGen.appCpuLora.force_load_lora_weights at h
  cases pl with
  | false => simp at h
  | true =>
      cases lr with
      | some e => simp at h
      | none =>
          cases pp with
          | error e => simp at h
          | ok image =>
              simp only [Bool.not_true, Bool.false_eq_true, if_false, Except.ok.injEq] at h
              subst h
              exact ⟨rfl, rfl⟩

open CoverGen in
/-- Helper: a background produced by the LORA_ONLY variant is always the
pipeline output resized to 1800 x 900. -/
theorem loraOnly_background_dims (pl : Bool) (lr : Option String)
    (pp : Except String CoverGen.Img) (bg : CoverGen.Img)
    (h : CoverGen.appLoraOnly.generate_with_universal_lora pl lr pp = Except.ok bg) :
    bg.width = 1800 ∧ bg.height = 900 := by
  unfold CoverGen.appLoraOnly.generate_with_universal_lora
    CoverGen.appLoraOnly.force_load_lora_weights at h
  cases pl with
  | false => simp at h
  | true =>
      cases lr with
      | some e => simp at h
      | none =>
          cases pp with
          | error e => simp at h
          | ok image =>
              simp only [Bool.not_true, Bool.false_eq_true, if_false, Except.ok.injEq] at h
              subst h
              exact ⟨rfl, rfl⟩

open CoverGen in
/-- Claim C4 amended: in the FRESH_SDXL, lightweight (both files), lora,
enhanced-fallback, force-visible, CPU_LORA and LORA_ONLY variants every
generated cover is 1800 x 900 (pipeline outputs of any other size are
resized before compositing) and the response metadata reports resolution
1800x900; app_minimal.py generates at 1792 x 896 with no resolution
metadata, app_minimal_sd15.py returns the unresized pipeline image (called
at 1024 x 512) in a body with no metadata at all, and app_fixed.py
delegates generation to a subprocess and reports none. -/
theorem claim_C4_amended :
    (∀ wm tw t s c st,
      ((CoverGen.lightweight.generate_cover wm tw t s c st).all fun i =>
        i.width == 1800 && i.height == 900) = true) ∧
    (∀ wm ex lo tw pp t s c st,
      ((CoverGen.appLora.generate_cover wm ex lo tw pp t s c st).all fun i =>
        i.width == 1800 && i.height == 900) = true) ∧
    (∀ st ul lo pp t s c sty,
      (((CoverGen.freshSdxl.generate_cover st ul lo pp t s c sty).1.1).all fun i =>
        i.width == 1800 && i.height == 900) = true) ∧
    (∀ st ul pp t s c sty,
      (((CoverGen.enhancedFallback.generate_cover st ul pp t s c sty).1).all fun i =>
        i.width == 1800 && i.height == 900) = true) ∧
    (∀ wm t s c sty,
      ((CoverGen.forceVisible.generate_cover wm t s c sty).all fun i =>
        i.width == 1800 && i.height == 900) = true) ∧
    (∀ req, (CoverGen.lightweight.metadataFor req).lookup ("resolution")
      = some (some ("1800x900"))) ∧
    (∀ req, (CoverGen.appLora.metadataFor req).lookup ("resolution")
      = some (some ("1800x900"))) ∧
    (∀ req method lu, (CoverGen.freshSdxl.metadataFor req method lu).lookup ("resolution")
      = some (some ("1800x900"))) ∧
    (∀ st req method, (CoverGen.enhancedFallback.metadataFor st req method).lookup ("resolution")
      = some (some ("1800x900"))) ∧
    (∀ req, (CoverGen.forceVisible.metadataFor req).lookup ("resolution")
      = some (some ("1800x900"))) ∧
    (∀ wm pl lr pp t s c sty,
      ((CoverGen.appCpuLora.generate_cover wm pl lr pp t s c sty).toOption.all fun p =>
        p.1.width == 1800 && p.1.height == 900) = true) ∧
    (∀ wm pl lr pp t s c sty,
      ((CoverGen.appLoraOnly.generate_cover wm pl lr pp t s c sty).toOption.all fun p =>
        p.1.width == 1800 && p.1.height == 900) = true) ∧
    (∀ wm t s c sty,
      (((CoverGen.deployLightweight.generate_cover wm t s c sty).1).all fun i =>
        i.width == 1800 && i.height == 900) = true) ∧
    (∀ req method, (CoverGen.appCpuLora.metadataFor req method).lookup ("resolution")
      = some (some ("1800x900"))) ∧
    (∀ req method, (CoverGen.appLoraOnly.metadataFor req method).lookup ("resolution")
      = some (some ("1800x900"))) ∧
    (∀ req method, (CoverGen.deployLightweight.metadataFor req method).lookup ("resolution")
      = some (some ("1800x900"))) ∧
    (∀ tw png img title, CoverGen.appMinimalSd15.generate tw png (Except.ok img) title
      = Except.ok (CoverGen.base64Encode (png img))) ∧
    CoverGen.appMinimalSd15.pipeline_width = 1024 ∧
    CoverGen.appMinimalSd15.pipeline_height = 512 ∧
    ¬ ((1024 : Nat) = 1800 ∧ (512 : Nat) = 900) := by
  refine ⟨?_, ?_, ?_, ?_, ?_,
    fun req => rfl, fun req => rfl, fun req method lu => rfl,
    fun st req method => rfl, fun req => rfl, ?_, ?_, ?_,
    fun req method => rfl, fun req method => rfl, fun req method => rfl,
    fun tw png img title => rfl, rfl, rfl, by decide⟩
  · intro wm tw t s c st
    simp only [CoverGen.lightweight.generate_cover]
    cases CoverGen.lightweight.create_text_overlay tw 1800 900 t s with
    | error e => rfl
    | ok lay => cases wm <;> rfl
  · intro wm ex lo tw pp t s c st
    simp only [CoverGen.appLora.generate_cover]
    cases pp with
    | none => rfl
    | some image =>
        cases CoverGen.appLora.create_text_overlay tw 1800 900 t s with
        | error e => rfl
        | ok lay => cases wm <;> rfl
  · intro st ul lo pp t s c sty
    obtain ⟨hw, hh⟩ := fresh_coverBackground_dims st ul lo pp c sty
    simp only [CoverGen.freshSdxl.generate_cover]
    cases hb : CoverGen.freshSdxl.coverBackground st ul lo pp c sty with
    | mk bg st1 =>
        rw [hb] at hw hh
        simp only at hw hh
        simp only [CoverGen.freshSdxl.create_text_overlay]
        split
        · rfl
        · cases st1.watermark <;>
            simp [CoverGen.alphaComposite, hw, hh]
  · intro st ul pp t s c sty
    obtain ⟨hw, hh⟩ := enhanced_coverBackground_dims st ul pp c sty
    simp only [CoverGen.enhancedFallback.generate_cover]
    cases hb : CoverGen.enhancedFallback.coverBackground st ul pp c sty with
    | mk bg method =>
        rw [hb] at hw hh
        simp only at hw hh
        simp only [CoverGen.enhancedFallback.create_text_overlay]
        split
        · rfl
        · cases st.watermark <;>
            simp [CoverGen.alphaComposite, hw, hh]
  · intro wm t s c sty
    simp only [CoverGen.forceVisible.generate_cover,
      CoverGen.forceVisible.create_massive_text_overlay]
    split
    · rfl
    · cases wm <;> rfl
  · intro wm pl lr pp t s c sty
    unfold CoverGen.appCpuLora.generate_cover
    cases hb : CoverGen.appCpuLora.generate_with_cpu_lora pl lr pp with
    | error e => rfl
    | ok background =>
        obtain ⟨hw, hh⟩ := cpu_background_dims pl lr pp background hb
        rcases Decidable.em (t = ("") ∧ s ≠ ("")) with hc | hc
        · simp [CoverGen.appCpuLora.create_text_overlay, if_pos hc, Except.toOption]
        · cases wm <;>
            simp [CoverGen.appCpuLora.create_text_overlay, if_neg hc,
              CoverGen.alphaComposite, hw, hh, Except.toOption, Option.all]
  · intro wm pl lr pp t s c sty
    unfold CoverGen.appLoraOnly.generate_cover
    cases hb : CoverGen.appLoraOnly.generate_with_universal_lora pl lr pp with
    | error e => rfl
    | ok background =>
        obtain ⟨hw, hh⟩ := loraOnly_background_dims pl lr pp background hb
        rcases Decidable.em (t = ("") ∧ s ≠ ("")) with hc | hc
        · simp [CoverGen.appLoraOnly.create_enhanced_text_overlay, if_pos hc, Except.toOption]
        · cases wm <;>
            simp [CoverGen.appLoraOnly.create_enhanced_text_overlay, if_neg hc,
              CoverGen.alphaComposite, hw, hh, Except.toOption, Option.all]
  · intro wm t s c sty
    simp only [CoverGen.deployLightweight.generate_cover,
      CoverGen.deployLightweight.create_text_overlay]
    split
    · rfl
    · cases wm <;> rfl

open CoverGen in
/-- Claim C5 as stated is refuted: app_lora.py resolves LoRA weights at a
per-client path with no style component, which differs from the claimed
models/lora/<client>_<style>_lora.safetensors convention. -/
theorem claim_C5_counterexample :
    CoverGen.appLora.variant ∈ CoverGen.variants ∧
    CoverGen.appLora.loraPathOf ("hedera") = ("models/lora/hedera_lora.safetensors") ∧
    CoverGen.freshSdxl.loraPathFor ("hedera") ("dark_theme")
      = ("models/lora/hedera_dark_theme_lora.safetensors") ∧
    ("models/lora/hedera_lora.safetensors" : String)
      ≠ ("models/lora/hedera_dark_theme_lora.safetensors") := by
  refine ⟨by decide, rfl, rfl, by decide⟩

open CoverGen in
/-- Claim C5 amended: the FRESH_SDXL variant resolves client and style
specific LoRA weights at models/lora/<client>_<style>_lora.safetensors (its
scan only records such paths, plus the universal file), while app_lora.py
resolves per-client weights at models/lora/<client>_lora.safetensors and
the CPU_LORA, LORA_ONLY and minimal_sd15 deploy variants resolve only the
universal file models/lora/crypto_cover_styles_lora.safetensors; every
variant that loads a watermark (all but app_fixed, app_minimal and
app_minimal_sd15, which load none) loads genfinity-watermark.png from the
working directory. -/
theorem claim_C5_amended :
    (∀ client style, CoverGen.freshSdxl.loraPathFor client style
      = ("models/lora/") ++ client ++ ("_") ++ style ++ ("_lora.safetensors")) ∧
    (∀ exists_, ((CoverGen.freshSdxl.check_available_loras exists_).all fun e =>
      (e == ((("universal"), CoverGen.freshSdxl.universalLoraPath))) ||
      (CoverGen.freshSdxl.clients.any fun c => CoverGen.freshSdxl.styles.any fun s =>
        e == (c ++ ("_") ++ s, CoverGen.freshSdxl.loraPathFor c s))) = true) ∧
    (∀ client, CoverGen.appLora.loraPathOf client
      = ("models/lora/") ++ client ++ ("_lora.safetensors")) ∧
    CoverGen.appCpuLora.universal_lora
      = ("models/lora/crypto_cover_styles_lora.safetensors") ∧
    CoverGen.appLoraOnly.universal_lora
      = ("models/lora/crypto_cover_styles_lora.safetensors") ∧
    CoverGen.appMinimalSd15.lora_path
      = ("models/lora/crypto_cover_styles_lora.safetensors") ∧
    CoverGen.freshSdxl.watermark_path = ("genfinity-watermark.png") ∧
    CoverGen.lightweight.watermark_path = ("genfinity-watermark.png") ∧
    CoverGen.appLora.watermark_path = ("genfinity-watermark.png") ∧
    CoverGen.enhancedFallback.watermark_path = ("genfinity-watermark.png") ∧
    CoverGen.forceVisible.watermark_path = ("genfinity-watermark.png") ∧
    CoverGen.appCpuLora.watermark_path = ("genfinity-watermark.png") ∧
    CoverGen.appLoraOnly.watermark_path = ("genfinity-watermark.png") ∧
    CoverGen.deployLightweight.watermark_path = ("genfinity-watermark.png") := by
  refine ⟨fun client style => rfl, ?_, fun client => rfl, rfl, rfl, rfl,
    rfl, rfl, rfl, rfl, rfl, rfl, rfl, rfl⟩
  intro exists_
  rw [List.all_eq_true]
  intro e he
  unfold CoverGen.freshSdxl.check_available_loras at he
  by_cases hdir : exists_ CoverGen.freshSdxl.lora_dir = true
  · rw [if_neg (by simp [hdir])] at he
    rw [List.mem_append] at he
    rcases he with he | he
    · rw [List.mem_flatMap] at he
      obtain ⟨c, hc, he⟩ := he
      rw [List.mem_filterMap] at he
      obtain ⟨s, hs, he⟩ := he
      by_cases hex : exists_ (CoverGen.freshSdxl.loraPathFor c s) = true
      · rw [if_pos hex] at he
        rw [Option.some.injEq] at he
        subst he
        refine Bool.or_eq_true_iff.mpr (Or.inr ?_)
        rw [List.any_eq_true]
        refine ⟨c, hc, ?_⟩
        rw [List.any_eq_true]
        exact ⟨s, hs, by simp⟩
      · rw [if_neg (by simpa using hex)] at he
        cases he
    · split at he
      · rw [List.mem_singleton] at he
        subst he
        simp
      · cases he
  · rw [if_pos (by simpa using hdir)] at he
    cases he

open CoverGen in
/-- Claim C3 confirmed: in the FRESH_SDXL and enhanced-fallback variants the
trained-LoRA background is attempted exactly when use_trained_lora is set
and a pipeline with an available LoRA is loaded (for FRESH_SDXL the
condition is use_trained_lora, a nonempty lora_available dictionary and a
loaded pipeline; for the enhanced variant use_trained_lora and a loaded
LoRA pipeline); whenever that attempt is skipped or returns None the
procedural generator supplies the background, so a background image always
exists, and generate_cover can only fail in the later overlay step (empty
title with a subtitle). -/
theorem claim_C3 (st : CoverGen.freshSdxl.GenState) (est : CoverGen.enhancedFallback.EFState)
    (ul lo : Bool) (pp : Option CoverGen.Img) (client style title subtitle : String) :
    ((ul && !st.lora_available.isEmpty && st.pipelineLoaded) = true →
      ∀ img, pp = some img →
      (CoverGen.freshSdxl.coverBackground st ul lo pp client style).1
        = img.resize 1800 900) ∧
    ((ul && !st.lora_available.isEmpty && st.pipelineLoaded) = false →
      (CoverGen.freshSdxl.coverBackground st ul lo pp client style).1
        = CoverGen.freshSdxl.generate_programmatic_fallback 1800 900 client style) ∧
    (pp = none →
      (CoverGen.freshSdxl.coverBackground st ul lo pp client style).1
        = CoverGen.freshSdxl.generate_programmatic_fallback 1800 900 client style) ∧
    ((ul && est.lora_pipeline) = true →
      ∀ img, pp = some img →
      (CoverGen.enhancedFallback.coverBackground est ul pp client style).1
        = img.resize 1800 900) ∧
    ((ul && est.lora_pipeline) = false →
      (CoverGen.enhancedFallback.coverBackground est ul pp client style).1
        = CoverGen.enhancedFallback.generate_enhanced_fallback 1800 900 client style) ∧
    (pp = none →
      (CoverGen.enhancedFallback.coverBackground est ul pp client style).1
        = CoverGen.enhancedFallback.generate_enhanced_fallback 1800 900 client style) ∧
    ((CoverGen.freshSdxl.generate_cover st ul lo pp title subtitle client style).1.1 = none →
      title = ("") ∧ subtitle ≠ ("")) ∧
    ((CoverGen.enhancedFallback.generate_cover est ul pp title subtitle client style).1 = none →
      title = ("") ∧ subtitle ≠ ("")) := by
  refine ⟨?_, ?_, ?_, ?_, ?_, ?_, ?_, ?_⟩
  · intro hcond img hpp
    subst hpp
    simp only [Bool.and_eq_true] at hcond
    obtain ⟨⟨hu, hl⟩, hp⟩ := hcond
    simp [CoverGen.freshSdxl.coverBackground, CoverGen.freshSdxl.generate_with_trained_lora,
      hu, hl, hp]
  · intro hcond
    simp only [Bool.and_eq_false_iff] at hcond
    rcases hcond with (hu | hl) | hp
    · simp [CoverGen.freshSdxl.coverBackground, hu]
    · simp [CoverGen.freshSdxl.coverBackground, hl]
    · simp [CoverGen.freshSdxl.coverBackground, CoverGen.freshSdxl.generate_with_trained_lora, hp]
  · intro hpp
    subst hpp
    by_cases hcond : (ul && !st.lora_available.isEmpty && st.pipelineLoaded) = true
    · simp only [Bool.and_eq_true] at hcond
      obtain ⟨⟨hu, hl⟩, hp⟩ := hcond
      simp [CoverGen.freshSdxl.coverBackground, CoverGen.freshSdxl.generate_with_trained_lora,
        hu, hl, hp]
    · rw [Bool.not_eq_true] at hcond
      simp only [Bool.and_eq_false_iff] at hcond
      rcases hcond with (hu | hl) | hp
      · simp [CoverGen.freshSdxl.coverBackground, hu]
      · simp [CoverGen.freshSdxl.coverBackground, hl]
      · simp [CoverGen.freshSdxl.coverBackground,
          CoverGen.freshSdxl.generate_with_trained_lora, hp]
  · intro hcond img hpp
    subst hpp
    simp only [Bool.and_eq_true] at hcond
    obtain ⟨hu, hp⟩ := hcond
    simp [CoverGen.enhancedFallback.coverBackground,
      CoverGen.enhancedFallback.generate_with_universal_lora, hu, hp]
  · intro hcond
    simp only [Bool.and_eq_false_iff] at hcond
    rcases hcond with hu | hp
    · simp [CoverGen.enhancedFallback.coverBackground, hu]
    · simp [CoverGen.enhancedFallback.coverBackground,
        CoverGen.enhancedFallback.generate_with_universal_lora, hp]
  · intro hpp
    subst hpp
    by_cases hcond : (ul && est.lora_pipeline) = true
    · simp only [Bool.and_eq_true] at hcond
      obtain ⟨hu, hp⟩ := hcond
      simp [CoverGen.enhancedFallback.coverBackground,
        CoverGen.enhancedFallback.generate_with_universal_lora, hu, hp]
    · rw [Bool.not_eq_true] at hcond
      simp only [Bool.and_eq_false_iff] at hcond
      rcases hcond with hu | hp
      · simp [CoverGen.enhancedFallback.coverBackground, hu]
      · simp [CoverGen.enhancedFallback.coverBackground,
          CoverGen.enhancedFallback.generate_with_universal_lora, hp]
  · intro h
    by_cases hc : title = ("") ∧ subtitle ≠ ("")
    · exact hc
    · exfalso
      simp only [CoverGen.freshSdxl.generate_cover] at h
      cases hb : CoverGen.freshSdxl.coverBackground st ul lo pp client style with
      | mk bg st1 =>
          rw [hb] at h
          simp only [CoverGen.freshSdxl.create_text_overlay, if_neg hc] at h
          cases h
  · intro h
    by_cases hc : title = ("") ∧ subtitle ≠ ("")
    · exact hc
    · exfalso
      simp only [CoverGen.enhancedFallback.generate_cover] at h
      cases hb : CoverGen.enhancedFallback.coverBackground est ul pp client style with
      | mk bg method =>
          rw [hb] at h
          simp only [CoverGen.enhancedFallback.create_text_overlay, if_neg hc] at h
          cases h

open CoverGen in
/-- Witness for claim C3: with a loaded pipeline and the universal LoRA
available, a pipeline output is upscaled and used; when the pipeline call
yields None the programmatic fallback is used; and a cover failure occurs
exactly on the empty-title-with-subtitle overlay error. -/
theorem claim_C3_witness :
    ((true && !([(("universal"), CoverGen.freshSdxl.universalLoraPath)] :
        List (String × String)).isEmpty && true) = true) ∧
    (CoverGen.freshSdxl.coverBackground
        ⟨true, [(("universal"), CoverGen.freshSdxl.universalLoraPath)], none, none⟩
        true true (some ⟨1024, 512, none⟩) ("hedera") ("dark_theme")).1
      = CoverGen.Img.resize ⟨1024, 512, none⟩ 1800 900 ∧
    (CoverGen.freshSdxl.coverBackground
        ⟨true, [(("universal"), CoverGen.freshSdxl.universalLoraPath)], none, none⟩
        true true none ("hedera") ("dark_theme")).1
      = CoverGen.freshSdxl.generate_programmatic_fallback 1800 900 ("hedera") ("dark_theme") ∧
    ((("") : String) = ("") ∧ ("CRYPTO NEWS" : String) ≠ ("")) := by
  refine ⟨by decide, ?_, ?_, ?_⟩
  · exact (claim_C3 ⟨true, [(("universal"), CoverGen.freshSdxl.universalLoraPath)], none, none⟩
      ⟨none, false, false⟩ true true (some ⟨1024, 512, none⟩) ("hedera") ("dark_theme")
      ("t") ("s")).1 (by decide) ⟨1024, 512, none⟩ rfl
  · exact (claim_C3 ⟨true, [(("universal"), CoverGen.freshSdxl.universalLoraPath)], none, none⟩
      ⟨none, false, false⟩ true true none ("hedera") ("dark_theme")
      ("t") ("s")).2.2.1 rfl
  · exact (claim_C3 ⟨true, [(("universal"), CoverGen.freshSdxl.universalLoraPath)], none, none⟩
      ⟨none, false, false⟩ true true none ("hedera") ("dark_theme")
      ("") ("CRYPTO NEWS")).2.2.2.2.2.2.1 rfl

open CoverGen in
/-- Claim C10 confirmed: for any client outside the three configured brands
the procedural background generators of app_lightweight.py and the
FRESH_SDXL variant silently select the hedera colour scheme through
colors.get(client, colors[hedera]) and still produce a full-size
background, so background generation is total in the client argument. -/
theorem claim_C10 (client style : String)
    (h : client ∉ [("hedera"), ("algorand"), ("constellation")]) :
    CoverGen.lightweight.clientColorsFor client = CoverGen.lightweight.hederaPalette ∧
    CoverGen.freshSdxl.clientColorsFor client = CoverGen.freshSdxl.hederaPalette ∧
    CoverGen.lightweight.create_enhanced_background 1800 900 client style
      = { width := 1800, height := 900, scheme := some CoverGen.lightweight.hederaPalette } ∧
    CoverGen.freshSdxl.generate_programmatic_fallback 1800 900 client style
      = { width := 1800, height := 900, scheme := some CoverGen.freshSdxl.hederaPalette } := by
  simp only [List.mem_cons, not_or] at h
  obtain ⟨h1, h2, h3, -⟩ := h
  have b1 : (client == ("hedera")) = false := beq_eq_false_iff_ne.mpr h1
  have b2 : (client == ("algorand")) = false := beq_eq_false_iff_ne.mpr h2
  have b3 : (client == ("constellation")) = false := beq_eq_false_iff_ne.mpr h3
  have hl : CoverGen.lightweight.clientColorsFor client = CoverGen.lightweight.hederaPalette := by
    simp [CoverGen.lightweight.clientColorsFor, CoverGen.lightweight.colors,
      List.lookup, b1, b2, b3]
  have hf : CoverGen.freshSdxl.clientColorsFor client = CoverGen.freshSdxl.hederaPalette := by
    simp [CoverGen.freshSdxl.clientColorsFor, CoverGen.freshSdxl.colors,
      List.lookup, b1, b2, b3]
  refine ⟨hl, hf, ?_, ?_⟩
  · simp [CoverGen.lightweight.create_enhanced_background, hl]
  · simp [CoverGen.freshSdxl.generate_programmatic_fallback, hf]

open CoverGen in
/-- Witness for claim C10: the unknown client bitcoin falls back to the
hedera colour scheme in both generators. -/
theorem claim_C10_witness :
    (("bitcoin") ∉ [("hedera"), ("algorand"), ("constellation")]) ∧
    CoverGen.lightweight.clientColorsFor ("bitcoin") = CoverGen.lightweight.hederaPalette ∧
    CoverGen.freshSdxl.clientColorsFor ("bitcoin") = CoverGen.freshSdxl.hederaPalette ∧
    CoverGen.lightweight.create_enhanced_background 1800 900 ("bitcoin") ("dark_theme")
      = { width := 1800, height := 900, scheme := some CoverGen.lightweight.hederaPalette } ∧
    CoverGen.freshSdxl.generate_programmatic_fallback 1800 900 ("bitcoin") ("dark_theme")
      = { width := 1800, height := 900, scheme := some CoverGen.freshSdxl.hederaPalette } :=
  ⟨by decide, claim_C10 ("bitcoin") ("dark_theme") (by decide)⟩


open CoverGen in
/-- Claim C7 confirmed for the cited variants: in create_text_overlay of
app_lightweight.py and app_lora.py a non-empty title is rendered
uppercased; it is split at the word midpoint into exactly two lines exactly
when its rendered single-line width exceeds 0.8 times the image width
(embedded as the exact inequality 5 * text_width > 4 * width, which
coincides with the float comparison at the call width 1800), and every
title line and the subtitle is centred at x = (width - text_width) // 2. -/
theorem claim_C7 (tw : String → Nat) (width height : Nat) (title subtitle : String)
    (hT : title ≠ ("")) :
    ((CoverGen.lightweight.create_text_overlay tw width height title subtitle).isOk = true ∧
     (CoverGen.okLayoutOf
        (CoverGen.lightweight.create_text_overlay tw width height title subtitle)).titleLines
       = (if 5 * tw (CoverGen.pyUpper title) > 4 * width then
            [CoverGen.joinSp ((CoverGen.pySplit (CoverGen.pyUpper title)).take
               ((CoverGen.pySplit (CoverGen.pyUpper title)).length / 2)),
             CoverGen.joinSp ((CoverGen.pySplit (CoverGen.pyUpper title)).drop
               ((CoverGen.pySplit (CoverGen.pyUpper title)).length / 2))]
          else [CoverGen.pyUpper title]) ∧
     (CoverGen.okLayoutOf
        (CoverGen.lightweight.create_text_overlay tw width height title subtitle)).titleLines.length
       = (if 5 * tw (CoverGen.pyUpper title) > 4 * width then 2 else 1) ∧
     ((CoverGen.okLayoutOf
        (CoverGen.lightweight.create_text_overlay tw width height title subtitle)).titleDraws.all
        fun d => d.x == ((width : Int) - (tw d.line : Int)).fdiv 2) = true ∧
     (CoverGen.okLayoutOf
        (CoverGen.lightweight.create_text_overlay tw width height title subtitle)).subtitleDraw
       = (if subtitle = ("") then none
          else some ⟨subtitle, ((width : Int) - (tw subtitle : Int)).fdiv 2,
            ((height / 3 : Nat) : Int)
              + ((CoverGen.okLayoutOf (CoverGen.lightweight.create_text_overlay tw width height
                    title subtitle)).titleLines.length : Int) * 200 + 80⟩)) ∧
    ((CoverGen.appLora.create_text_overlay tw width height title subtitle).isOk = true ∧
     (CoverGen.okLayoutOf
        (CoverGen.appLora.create_text_overlay tw width height title subtitle)).titleLines
       = (if 5 * tw (CoverGen.pyUpper title) > 4 * width then
            [CoverGen.joinSp ((CoverGen.pySplit (CoverGen.pyUpper title)).take
               ((CoverGen.pySplit (CoverGen.pyUpper title)).length / 2)),
             CoverGen.joinSp ((CoverGen.pySplit (CoverGen.pyUpper title)).drop
               ((CoverGen.pySplit (CoverGen.pyUpper title)).length / 2))]
          else [CoverGen.pyUpper title]) ∧
     (CoverGen.okLayoutOf
        (CoverGen.appLora.create_text_overlay tw width height title subtitle)).titleLines.length
       = (if 5 * tw (CoverGen.pyUpper title) > 4 * width then 2 else 1) ∧
     ((CoverGen.okLayoutOf
        (CoverGen.appLora.create_text_overlay tw width height title subtitle)).titleDraws.all
        fun d => d.x == ((width : Int) - (tw d.line : Int)).fdiv 2) = true ∧
     (CoverGen.okLayoutOf
        (CoverGen.appLora.create_text_overlay tw width height title subtitle)).subtitleDraw
       = (if subtitle = ("") then none
          else some ⟨subtitle, ((width : Int) - (tw subtitle : Int)).fdiv 2,
            ((height / 3 : Nat) : Int)
              + ((CoverGen.okLayoutOf (CoverGen.appLora.create_text_overlay tw width height
                    title subtitle)).titleLines.length : Int) * 130 + 50⟩)) := by
  have centred : ∀ (L : List String) (spacing : Int),
      ((L.enum.map (fun p =>
        ({ line := p.2, x := ((width : Int) - (tw p.2 : Int)).fdiv 2,
           y := ((height / 3 : Nat) : Int) + (p.1 : Int) * spacing } : CoverGen.TextDraw))).all
        fun d => d.x == ((width : Int) - (tw d.line : Int)).fdiv 2) = true := by
    intro L spacing
    rw [List.all_eq_true]
    intro d hd
    rw [List.mem_map] at hd
    obtain ⟨p, hp, rfl⟩ := hd
    simp
  constructor
  · by_cases hs : subtitle = ("")
    · simp only [CoverGen.lightweight.create_text_overlay, if_neg hT, if_pos hs,
        CoverGen.okLayoutOf, Except.toOption, Except.isOk, Option.getD, Option.map]
      refine ⟨by trivial, by trivial, ?_, centred _ 200, by trivial⟩
      by_cases hw : 5 * tw (CoverGen.pyUpper title) > 4 * width
      · simp only [if_pos hw]
        rfl
      · simp only [if_neg hw]
        rfl
    · simp only [CoverGen.lightweight.create_text_overlay, if_neg hT, if_neg hs,
        CoverGen.okLayoutOf, Except.toOption, Except.isOk, Option.getD, Option.map]
      refine ⟨by trivial, by trivial, ?_, centred _ 200, by trivial⟩
      by_cases hw : 5 * tw (CoverGen.pyUpper title) > 4 * width
      · simp only [if_pos hw]
        rfl
      · simp only [if_neg hw]
        rfl
  · by_cases hs : subtitle = ("")
    · simp only [CoverGen.appLora.create_text_overlay, if_neg hT, if_pos hs,
        CoverGen.okLayoutOf, Except.toOption, Except.isOk, Option.getD, Option.map]
      refine ⟨by trivial, by trivial, ?_, centred _ 130, by trivial⟩
      by_cases hw : 5 * tw (CoverGen.pyUpper title) > 4 * width
      · simp only [if_pos hw]
        rfl
      · simp only [if_neg hw]
        rfl
    · simp only [CoverGen.appLora.create_text_overlay, if_neg hT, if_neg hs,
        CoverGen.okLayoutOf, Except.toOption, Except.isOk, Option.getD, Option.map]
      refine ⟨by trivial, by trivial, ?_, centred _ 130, by trivial⟩
      by_cases hw : 5 * tw (CoverGen.pyUpper title) > 4 * width
      · simp only [if_pos hw]
        rfl
      · simp only [if_neg hw]
        rfl

open CoverGen in
/-- Witness for claim C7: a short title renders as one line and the overlay
succeeds; with a width function that reports a very wide rendering, the
title is split into two lines. -/
theorem claim_C7_witness :
    ((("BTC") : String) ≠ ("")) ∧
    (CoverGen.lightweight.create_text_overlay String.length 1800 900 ("BTC")
        ("CRYPTO NEWS")).isOk = true ∧
    (CoverGen.okLayoutOf (CoverGen.lightweight.create_text_overlay (fun _ => 10000) 1800 900
        ("AAAA BBBB") ("CRYPTO NEWS"))).titleLines.length
      = (if 5 * 10000 > 4 * 1800 then 2 else 1) :=
  ⟨by decide,
   (claim_C7 String.length 1800 900 ("BTC") ("CRYPTO NEWS") (by decide)).1.1,
   (claim_C7 (fun _ => 10000) 1800 900 ("AAAA BBBB") ("CRYPTO NEWS") (by decide)).1.2.2.1⟩

set_option maxRecDepth 16000 in
open CoverGen in
/-- Claim C8 confirmed: the Universal-LoRA creation script optimises
nothing. Its 500-step loop only fabricates losses from the linearly
decreasing schedule 1.5 * (1 - step / 500) plus the uniform noise draw,
clamped from below at 0.02, and sleeps 0.01 seconds per step; the saved
LoRA weights are 192 freshly drawn random normal tensors that depend on no
dataset and no training step: the weight dictionary is identical whatever
dataset statistics and training log are passed to the save routine. -/
theorem claim_C8 (stats stats2 : CoverGen.createUniversalLora.DatasetStats)
    (noise : Nat → ℚ) (pickS pickC : Nat → String)
    (log2 : List CoverGen.createUniversalLora.LogEntry) :
    (CoverGen.createUniversalLora.create_lora_model_structure stats noise pickS pickC).length
      = 500 ∧
    CoverGen.createUniversalLora.create_lora_model_structure stats noise pickS pickC
      = (List.range 500).map (fun step =>
          ⟨step, max (1 / 50) (3 / 2 * (1 - (step : ℚ) / 500) + noise step),
            pickS step, pickC step⟩) ∧
    ((CoverGen.createUniversalLora.create_lora_model_structure stats noise pickS pickC).all
      fun e => decide ((1 / 50 : ℚ) ≤ e.loss)) = true ∧
    CoverGen.createUniversalLora.step_sleep_seconds = 1 / 100 ∧
    (CoverGen.createUniversalLora.save_universal_lora_model stats
        (CoverGen.createUniversalLora.create_lora_model_structure stats noise pickS pickC)).weights
      = (CoverGen.createUniversalLora.save_universal_lora_model stats2 log2).weights ∧
    (CoverGen.createUniversalLora.save_universal_lora_model stats2 log2).weights.length = 192 ∧
    ((CoverGen.createUniversalLora.save_universal_lora_model stats2 log2).weights.map
        fun p => p.2.sampleIndex).Nodup := by
  refine ⟨?_, rfl, ?_, rfl, rfl, ?_, ?_⟩
  · simp [CoverGen.createUniversalLora.create_lora_model_structure,
      CoverGen.createUniversalLora.training_steps]
  · rw [List.all_eq_true]
    intro e he
    simp only [CoverGen.createUniversalLora.create_lora_model_structure,
      List.mem_map] at he
    obtain ⟨step, hstep, rfl⟩ := he
    rw [decide_eq_true_eq]
    exact le_max_left _ _
  · rfl
  · show (CoverGen.createUniversalLora.mock_lora_weights.map fun p => p.2.sampleIndex).Nodup
    decide
